import Mathlib

/-!
# delta-metrics-rest: the piece_commitment_logs repository (package `dao`)

A shallow embedding of `dao/piece_commitment_logs.go` together with a model of
the record store the functions talk to (`dao.DB`, a `*gorm.DB` of
`github.com/jinzhu/gorm`), followed by the table descriptors of package `model`
(`content_miner_logs.go`, `content_wallet_logs.go`) and by `RefreshDBViews` of
`main.go` with its two refresh jobs.

* Go `int64` / `int` values are `Int`; the one arithmetic expression of the file
  that can leave the `int64` range, `(page - 1) * pagesize`, is wrapped
  explicitly with `wrapInt64`.
* A Go `error` result is an `Option` (`none` is `nil`), a pointer or slice
  result that may be `nil` is an `Option` as well.
* The store is explicit state (`DB`); every store call takes the store error it
  is hit by, if any (`fault : Option StoreError`), so that connection, SQL and
  constraint errors can be injected call by call.
* A `Save` takes the instant `now` of the store's clock, with which gorm stamps
  `UpdatedAt` and a blank `CreatedAt`.
-/

set_option autoImplicit false

namespace Dao

/-! ## Errors -/

/-- Modelled from the spec: the four sentinel errors of package `dao`
(`ErrNotFound`, `ErrInsertFailed`, `ErrUpdateFailed`, `ErrDeleteFailed`); they are
declared in the package's base file, which is not among the sources
(spec, section 7: NotFound, InsertFailed, UpdateFailed, DeleteFailed). -/
inductive DaoError where
  | ErrNotFound
  | ErrInsertFailed
  | ErrUpdateFailed
  | ErrDeleteFailed
  deriving DecidableEq, Repr

/-- An error reported by the store in `db.Error`: gorm's `ErrRecordNotFound`
(a single-record query matched no row) or any other failure
(connection, SQL, constraint violation). -/
inductive StoreError where
  | ErrRecordNotFound
  | failure (msg : String)
  deriving DecidableEq, Repr

/-! ## Records -/

/-- Modelled from the spec: the semantic type of a field (spec, section 3:
"integer, text, timestamp, nullable variants of each"). -/
inductive Kind where
  | integer
  | text
  | timestamp
  | nullInteger
  | nullText
  | nullTimestamp
  deriving DecidableEq, Repr

/-- Modelled from the spec: the value of one field. A timestamp is an instant
counted from Go's zero time; a nullable value is `none` when it is null. -/
inductive Value where
  | integer (v : Int)
  | text (s : String)
  | timestamp (t : Int)
  | nullInteger (v : Option Int)
  | nullText (s : Option String)
  | nullTimestamp (t : Option Int)
  deriving DecidableEq, Repr

/-- The semantic type of a value. -/
def Value.kind : Value → Kind
  | .integer _ => .integer
  | .text _ => .text
  | .timestamp _ => .timestamp
  | .nullInteger _ => .nullInteger
  | .nullText _ => .nullText
  | .nullTimestamp _ => .nullTimestamp

/-- The zero value of a semantic type (Go's zero value of the field type). -/
def Kind.zero : Kind → Value
  | .integer => .integer 0
  | .text => .text ""
  | .timestamp => .timestamp 0
  | .nullInteger => .nullInteger none
  | .nullText => .nullText none
  | .nullTimestamp => .nullTimestamp none

/-- A field counts as not set when it is zero-valued or null (spec, 4.1 Update:
"fields absent or zero-valued in patch are left unchanged"). -/
def Value.isZero (v : Value) : Bool :=
  v == v.kind.zero

/-- Modelled from the spec: the record type `model.PieceCommitmentLogs`, declared
in `model/piece_commitment_logs.go`, which is not among the sources. As in the
sibling models (`ContentMinerLogs`, `ContentWalletLogs`) the primary key is the
`int64` field `ID` and the record carries the two timestamps `CreatedAt` and
`UpdatedAt` that gorm maintains (instants counted from Go's zero time, `0` being
the zero time, which gorm calls blank); the other fields are an ordered list of
values (spec, section 3: "a stable ordered set of fields"). -/
structure PieceCommitmentLogs where
  ID : Int
  cols : List Value
  CreatedAt : Int
  UpdatedAt : Int
  deriving DecidableEq, Repr

/-- The zero-valued record `model.PieceCommitmentLogs{}` of a given field list. -/
def zeroRecord (schema : List Kind) : PieceCommitmentLogs :=
  { ID := 0, cols := schema.map Kind.zero, CreatedAt := 0, UpdatedAt := 0 }

/-- Field-wise overlay of `src` onto `dst`: a field of `src` that is set replaces
the field of `dst`, a field that is not set leaves it; `none` when the two field
lists do not have the same semantic types. -/
def mergeCols : List Value → List Value → Option (List Value)
  | [], [] => some []
  | d :: ds, s :: ss =>
    if d.kind = s.kind then
      (mergeCols ds ss).map (fun t => (if s.isZero then d else s) :: t)
    else none
  | _, _ => none

/-- Modelled from the spec: `dao.Copy(dst, src)`, declared in the package's base
file, which is not among the sources. Spec, 4.1 Update: it "overlays
non-zero/non-null fields from patch onto" the fetched record ("fields absent or
zero-valued in patch are left unchanged") and it may report an error. The spec
does not say when the merge errors; here it does when the two records are not of
the same type (their field lists differ in length or in a semantic type). -/
def Copy (dst src : PieceCommitmentLogs) : Except String PieceCommitmentLogs :=
  match mergeCols dst.cols src.cols with
  | none => .error "records of different types"
  | some cols =>
    .ok { ID := if src.ID = 0 then dst.ID else src.ID,
          cols := cols,
          CreatedAt := if src.CreatedAt = 0 then dst.CreatedAt else src.CreatedAt,
          UpdatedAt := if src.UpdatedAt = 0 then dst.UpdatedAt else src.UpdatedAt }

/-! ## The record store -/

/-- Wrap-around of `int64` arithmetic. -/
def wrapInt64 (x : Int) : Int :=
  (x + 2 ^ 63) % 2 ^ 64 - 2 ^ 63

/-- The `int64` range. -/
def isInt64 (x : Int) : Prop :=
  -(2 ^ 63) ≤ x ∧ x < 2 ^ 63

instance (x : Int) : Decidable (isInt64 x) := by
  unfold isInt64; infer_instance

/-- The clauses a `*gorm.DB` query handle has accumulated (`Offset`, `Limit`,
`Order`); `none` is a clause that was never set. -/
structure Query where
  offset : Option Int
  limit : Option Int
  order : Option String
  deriving DecidableEq, Repr

/-- The handle `DB.Model(&model.PieceCommitmentLogs{})`: no clause yet. -/
def Query.Model : Query :=
  { offset := none, limit := none, order := none }

/-- The call `q.Offset(n)`. -/
def Query.Offset (q : Query) (n : Int) : Query :=
  { q with offset := some n }

/-- The call `q.Limit(n)`. -/
def Query.Limit (q : Query) (n : Int) : Query :=
  { q with limit := some n }

/-- The call `q.Order(expr)`. -/
def Query.Order (q : Query) (expr : String) : Query :=
  { q with order := some expr }

/-- The table `piece_commitment_logs`: its rows in the store's default order and
the sequence from which the store assigns a primary key to a record saved
without one. -/
structure DB where
  rows : List PieceCommitmentLogs
  seq : Nat
  deriving DecidableEq, Repr

/-- The identifier `id` is the primary key of a stored record. -/
def DB.hasKey (db : DB) (id : Int) : Bool :=
  db.rows.any (fun r => r.ID == id)

/-- The data-model invariant of the spec (section 3): the primary key is unique
within the table and never blank (gorm treats a zero `ID` as "no primary key"). -/
def DB.WF (db : DB) : Prop :=
  (db.rows.map (fun r => r.ID)).Nodup ∧ ∀ r ∈ db.rows, r.ID ≠ 0

/-- The `OFFSET` clause: an offset that was never set, or is negative, is left
out of the statement (gorm writes `OFFSET n` only for `n >= 0`). -/
def applyOffset {α : Type} (o : Option Int) (l : List α) : List α :=
  match o with
  | none => l
  | some n => if 0 ≤ n then l.drop n.toNat else l

/-- The `LIMIT` clause: a limit that was never set, or is negative, is left out
of the statement (gorm writes `LIMIT n` only for `n >= 0`). -/
def applyLimit {α : Type} (o : Option Int) (l : List α) : List α :=
  match o with
  | none => l
  | some n => if 0 ≤ n then l.take n.toNat else l

/-- The `ORDER BY` clause; `ord` is the store's reading of an order expression.
Without the clause the rows come in the store's default order. -/
def applyOrder (ord : String → List PieceCommitmentLogs → List PieceCommitmentLogs)
    (o : Option String) (l : List PieceCommitmentLogs) : List PieceCommitmentLogs :=
  match o with
  | none => l
  | some e => ord e l

/-- The call `q.Count(&totalRows)`: the number of rows of the table. -/
def DB.Count (db : DB) (fault : Option StoreError) : Except StoreError Int :=
  match fault with
  | some e => .error e
  | none => .ok db.rows.length

/-- The call `q.Find(&results)` into a slice: order, then offset, then limit.
Matching no row is not an error for a slice. -/
def DB.Find (ord : String → List PieceCommitmentLogs → List PieceCommitmentLogs)
    (db : DB) (fault : Option StoreError) (q : Query) :
    Except StoreError (List PieceCommitmentLogs) :=
  match fault with
  | some e => .error e
  | none => .ok (applyLimit q.limit (applyOffset q.offset (applyOrder ord q.order db.rows)))

/-- The call `DB.First(record, id)`: the record whose primary key is `id`;
`ErrRecordNotFound` when there is none. -/
def DB.First (db : DB) (fault : Option StoreError) (id : Int) :
    Except StoreError PieceCommitmentLogs :=
  match fault with
  | some e => .error e
  | none =>
    match db.rows.find? (fun r => r.ID == id) with
    | some r => .ok r
    | none => .error .ErrRecordNotFound

/-- The call `db.Save(record)` of gorm ("Save update value in database, if the
value doesn't have primary key, will insert it"), at the instant `now` of the
store's clock.

* With a primary key, gorm runs its update: it sets `UpdatedAt` of the record to
  `now`, whatever the caller put there, and updates the row of that key with
  every field of the record except the primary key and a blank `CreatedAt`,
  which is left out of the statement, so the stored `CreatedAt` stays. When no
  row was updated it inserts the record, filling a blank `CreatedAt` with `now`.
* Without a primary key (`ID` zero) it inserts the record under the next key of
  the sequence, which fails when that key is taken, filling a blank `CreatedAt`
  and a blank `UpdatedAt` with `now`.

Returns the record as gorm left it in memory, the rows affected and the new
table. -/
def DB.Save (db : DB) (fault : Option StoreError) (now : Int) (r : PieceCommitmentLogs) :
    Except StoreError (PieceCommitmentLogs × Int × DB) :=
  match fault with
  | some e => .error e
  | none =>
    if r.ID ≠ 0 then
      let r1 : PieceCommitmentLogs := { r with UpdatedAt := now }
      if db.hasKey r.ID then
        .ok (r1, ((db.rows.filter (fun x => x.ID == r.ID)).length : Int),
          { db with rows := db.rows.map (fun x =>
              if x.ID == r.ID then
                { r1 with CreatedAt := if r1.CreatedAt = 0 then x.CreatedAt else r1.CreatedAt }
              else x) })
      else
        let r2 : PieceCommitmentLogs :=
          { r1 with CreatedAt := if r1.CreatedAt = 0 then now else r1.CreatedAt }
        .ok (r2, 1, { db with rows := db.rows ++ [r2] })
    else
      let r1 : PieceCommitmentLogs :=
        { r with
          ID := (db.seq : Int) + 1,
          CreatedAt := if r.CreatedAt = 0 then now else r.CreatedAt,
          UpdatedAt := if r.UpdatedAt = 0 then now else r.UpdatedAt }
      if db.hasKey r1.ID then
        .error (.failure "duplicate key value violates unique constraint")
      else
        .ok (r1, 1, { rows := db.rows ++ [r1], seq := db.seq + 1 })

/-- The call `db.Delete(record)` of gorm: deletes the rows whose primary key is
the record's; a record without primary key (`ID` zero) puts no condition on the
statement, which then deletes every row. Returns the rows affected and the new
table. -/
def DB.Delete (db : DB) (fault : Option StoreError) (r : PieceCommitmentLogs) :
    Except StoreError (Int × DB) :=
  match fault with
  | some e => .error e
  | none =>
    if r.ID ≠ 0 then
      .ok (((db.rows.filter (fun x => x.ID == r.ID)).length : Int),
        { db with rows := db.rows.filter (fun x => !(x.ID == r.ID)) })
    else
      .ok ((db.rows.length : Int), { db with rows := [] })

/-! ## The repository functions of `dao/piece_commitment_logs.go` -/

/-- Lines 26 to 38 of `GetAllPieceCommitmentLogs`: the query handle after the
pagination and ordering clauses have been applied. -/
def listQuery (page pagesize : Int) (order : String) : Query :=
  let resultOrm := Query.Model
  let resultOrm :=
    if page > 0 then
      let offset := wrapInt64 ((page - 1) * pagesize)
      (resultOrm.Offset offset).Limit pagesize
    else
      resultOrm.Limit pagesize
  if order ≠ "" then resultOrm.Order order else resultOrm

/-- `GetAllPieceCommitmentLogs(ctx, page, pagesize, order)`: returns
`(results, totalRows, err)`. The error of `Count` is not looked at; `totalRows`
keeps its zero value when `Count` fails. -/
def GetAllPieceCommitmentLogs
    (ord : String → List PieceCommitmentLogs → List PieceCommitmentLogs)
    (db : DB) (countFault findFault : Option StoreError)
    (page pagesize : Int) (order : String) :
    Option (List PieceCommitmentLogs) × Int × Option DaoError :=
  let totalRows : Int :=
    match db.Count countFault with
    | .ok n => n
    | .error _ => 0
  match db.Find ord findFault (listQuery page pagesize order) with
  | .error _ => (none, -1, some .ErrNotFound)
  | .ok results => (some results, totalRows, none)

/-- `GetPieceCommitmentLogs(ctx, argID)`: returns `(record, err)`; on failure the
record is the zero-valued record the function allocated. -/
def GetPieceCommitmentLogs (schema : List Kind) (db : DB) (fault : Option StoreError)
    (argID : Int) : PieceCommitmentLogs × Option DaoError :=
  match db.First fault argID with
  | .error _ => (zeroRecord schema, some .ErrNotFound)
  | .ok record => (record, none)

/-- `AddPieceCommitmentLogs(ctx, record)`: returns `(result, RowsAffected, err)`
and the new table; `now` is the instant of the store's clock at the `Save`. -/
def AddPieceCommitmentLogs (db : DB) (fault : Option StoreError) (now : Int)
    (record : PieceCommitmentLogs) :
    (Option PieceCommitmentLogs × Int × Option DaoError) × DB :=
  match db.Save fault now record with
  | .error _ => ((none, -1, some .ErrInsertFailed), db)
  | .ok (record, rowsAffected, db1) => ((some record, rowsAffected, none), db1)

/-- `UpdatePieceCommitmentLogs(ctx, argID, updated)`: returns
`(result, RowsAffected, err)` and the new table; `now` is the instant of the
store's clock at the `Save`. -/
def UpdatePieceCommitmentLogs (db : DB) (firstFault saveFault : Option StoreError)
    (now : Int) (argID : Int) (updated : PieceCommitmentLogs) :
    (Option PieceCommitmentLogs × Int × Option DaoError) × DB :=
  match db.First firstFault argID with
  | .error _ => ((none, -1, some .ErrNotFound), db)
  | .ok result =>
    match Copy result updated with
    | .error _ => ((none, -1, some .ErrUpdateFailed), db)
    | .ok result =>
      match db.Save saveFault now result with
      | .error _ => ((none, -1, some .ErrUpdateFailed), db)
      | .ok (result, rowsAffected, db1) => ((some result, rowsAffected, none), db1)

/-- `DeletePieceCommitmentLogs(ctx, argID)`: returns `(rowsAffected, err)` and
the new table. -/
def DeletePieceCommitmentLogs (db : DB) (firstFault deleteFault : Option StoreError)
    (argID : Int) : (Int × Option DaoError) × DB :=
  match db.First firstFault argID with
  | .error _ => ((-1, some .ErrNotFound), db)
  | .ok record =>
    match db.Delete deleteFault record with
    | .error _ => ((-1, some .ErrDeleteFailed), db)
    | .ok (rowsAffected, db1) => ((rowsAffected, none), db1)

/-- The rows of `l` at the positions `i` with `lo ≤ i < hi`. -/
def rowsAt {α : Type} (l : List α) (lo hi : Int) : List α :=
  (l.take hi.toNat).drop lo.toNat


/-- The ordered result of a list query: the whole table under the `ORDER BY`
clause of `listQuery` (none when `order` is the empty string). -/
def orderedRows (ord : String → List PieceCommitmentLogs → List PieceCommitmentLogs)
    (db : DB) (order : String) : List PieceCommitmentLogs :=
  applyOrder ord (if order ≠ "" then some order else none) db.rows

/-! ## The list query with the package variables made explicit -/

/-- Modelled from the spec: an entry of the Result Cache (spec, section 3, Cache
Entry): a query signature (entity kind, page, page size, order expression)
mapped to a fetched page and a total row count, with a creation time. The
variable `dao.Cacher` that holds the entries is declared in the package's base
file, which is not among the sources. -/
structure CacheEntry where
  kind : String
  page : Int
  pagesize : Int
  order : String
  records : List PieceCommitmentLogs
  totalRows : Int
  created : Nat
  deriving DecidableEq, Repr

/-- The package-level variables of `dao` a list call can reach: the store behind
`dao.DB`, the number of statements sent to it so far (the store-call counter of
the spec, section 8), and the entries of `dao.Cacher`. -/
structure Globals where
  store : DB
  calls : Nat
  Cacher : List CacheEntry
  deriving DecidableEq, Repr

/-- `GetAllPieceCommitmentLogs` over the package variables: the body of the
function with every statement sent to the store counted. The body never names
`dao.Cacher`, so the entries are handed on as they are. -/
def GetAllPieceCommitmentLogsCounted
    (ord : String → List PieceCommitmentLogs → List PieceCommitmentLogs)
    (g : Globals) (countFault findFault : Option StoreError)
    (page pagesize : Int) (order : String) :
    (Option (List PieceCommitmentLogs) × Int × Option DaoError) × Globals :=
  let totalRows : Int :=
    match g.store.Count countFault with
    | .ok n => n
    | .error _ => 0
  let g : Globals := { g with calls := g.calls + 1 }
  match g.store.Find ord findFault (listQuery page pagesize order) with
  | .error _ => ((none, -1, some .ErrNotFound), { g with calls := g.calls + 1 })
  | .ok results => ((some results, totalRows, none), { g with calls := g.calls + 1 })

end Dao

/-! # Package `model`: the table descriptors -/

namespace Model

/-- The struct type `ColumnInfo`. Its declaration is in the package's base file,
which is not among the sources; the fields are the ones the descriptor literals
of `content_miner_logs.go` and `content_wallet_logs.go` set. -/
structure ColumnInfo where
  Index : Int
  Name : String
  Comment : String
  Notes : String
  Nullable : Bool
  DatabaseTypeName : String
  DatabaseTypePretty : String
  IsPrimaryKey : Bool
  IsAutoIncrement : Bool
  IsArray : Bool
  ColumnType : String
  ColumnLength : Int
  GoFieldName : String
  GoFieldType : String
  JSONFieldName : String
  ProtobufFieldName : String
  ProtobufType : String
  ProtobufPos : Int
  deriving DecidableEq, Repr

/-- The struct type `TableInfo` (declared in the same base file): a table name
and its columns. -/
structure TableInfo where
  Name : String
  Columns : List ColumnInfo
  deriving DecidableEq, Repr

/-- The descriptor `content_miner_logsTableInfo` of `model/content_miner_logs.go`. -/
def content_miner_logsTableInfo : TableInfo :=
  { Name := "content_miner_logs",
    Columns := [
    { Index := 0, Name := "id", Comment := "", Notes := "", Nullable := false,
      DatabaseTypeName := "INT8", DatabaseTypePretty := "INT8", IsPrimaryKey := true,
      IsAutoIncrement := false, IsArray := false, ColumnType := "INT8", ColumnLength := -1,
      GoFieldName := "ID", GoFieldType := "int64", JSONFieldName := "id",
      ProtobufFieldName := "id", ProtobufType := "int32", ProtobufPos := 1 },
    { Index := 1, Name := "content", Comment := "", Notes := "", Nullable := true,
      DatabaseTypeName := "INT8", DatabaseTypePretty := "INT8", IsPrimaryKey := false,
      IsAutoIncrement := false, IsArray := false, ColumnType := "INT8", ColumnLength := -1,
      GoFieldName := "Content", GoFieldType := "sql.NullInt64", JSONFieldName := "content",
      ProtobufFieldName := "content", ProtobufType := "int32", ProtobufPos := 2 },
    { Index := 2, Name := "miner", Comment := "", Notes := "", Nullable := true,
      DatabaseTypeName := "TEXT", DatabaseTypePretty := "TEXT", IsPrimaryKey := false,
      IsAutoIncrement := false, IsArray := false, ColumnType := "TEXT", ColumnLength := -1,
      GoFieldName := "Miner", GoFieldType := "sql.NullString", JSONFieldName := "miner",
      ProtobufFieldName := "miner", ProtobufType := "string", ProtobufPos := 3 },
    { Index := 3, Name := "node_info", Comment := "", Notes := "", Nullable := true,
      DatabaseTypeName := "TEXT", DatabaseTypePretty := "TEXT", IsPrimaryKey := false,
      IsAutoIncrement := false, IsArray := false, ColumnType := "TEXT", ColumnLength := -1,
      GoFieldName := "NodeInfo", GoFieldType := "sql.NullString", JSONFieldName := "node_info",
      ProtobufFieldName := "node_info", ProtobufType := "string", ProtobufPos := 4 },
    { Index := 4, Name := "requester_info", Comment := "", Notes := "", Nullable := true,
      DatabaseTypeName := "TEXT", DatabaseTypePretty := "TEXT", IsPrimaryKey := false,
      IsAutoIncrement := false, IsArray := false, ColumnType := "TEXT", ColumnLength := -1,
      GoFieldName := "RequesterInfo", GoFieldType := "sql.NullString",
      JSONFieldName := "requester_info", ProtobufFieldName := "requester_info",
      ProtobufType := "string", ProtobufPos := 5 },
    { Index := 5, Name := "requesting_api_key", Comment := "", Notes := "", Nullable := true,
      DatabaseTypeName := "TEXT", DatabaseTypePretty := "TEXT", IsPrimaryKey := false,
      IsAutoIncrement := false, IsArray := false, ColumnType := "TEXT", ColumnLength := -1,
      GoFieldName := "RequestingAPIKey", GoFieldType := "sql.NullString",
      JSONFieldName := "requesting_api_key", ProtobufFieldName := "requesting_api_key",
      ProtobufType := "string", ProtobufPos := 6 },
    { Index := 6, Name := "system_content_miner_id", Comment := "", Notes := "",
      Nullable := true, DatabaseTypeName := "INT8", DatabaseTypePretty := "INT8",
      IsPrimaryKey := false, IsAutoIncrement := false, IsArray := false, ColumnType := "INT8",
      ColumnLength := -1, GoFieldName := "SystemContentMinerID", GoFieldType := "sql.NullInt64",
      JSONFieldName := "system_content_miner_id", ProtobufFieldName := "system_content_miner_id",
      ProtobufType := "int32", ProtobufPos := 7 },
    { Index := 7, Name := "created_at", Comment := "", Notes := "", Nullable := true,
      DatabaseTypeName := "TIMESTAMPTZ", DatabaseTypePretty := "TIMESTAMPTZ",
      IsPrimaryKey := false, IsAutoIncrement := false, IsArray := false,
      ColumnType := "TIMESTAMPTZ", ColumnLength := -1, GoFieldName := "CreatedAt",
      GoFieldType := "time.Time", JSONFieldName := "created_at",
      ProtobufFieldName := "created_at", ProtobufType := "uint64", ProtobufPos := 8 },
    { Index := 8, Name := "updated_at", Comment := "", Notes := "", Nullable := true,
      DatabaseTypeName := "TIMESTAMPTZ", DatabaseTypePretty := "TIMESTAMPTZ",
      IsPrimaryKey := false, IsAutoIncrement := false, IsArray := false,
      ColumnType := "TIMESTAMPTZ", ColumnLength := -1, GoFieldName := "UpdatedAt",
      GoFieldType := "time.Time", JSONFieldName := "updated_at",
      ProtobufFieldName := "updated_at", ProtobufType := "uint64", ProtobufPos := 9 },
    { Index := 9, Name := "delta_node_uuid", Comment := "", Notes := "", Nullable := true,
      DatabaseTypeName := "TEXT", DatabaseTypePretty := "TEXT", IsPrimaryKey := false,
      IsAutoIncrement := false, IsArray := false, ColumnType := "TEXT", ColumnLength := -1,
      GoFieldName := "DeltaNodeUUID", GoFieldType := "sql.NullString",
      JSONFieldName := "delta_node_uuid", ProtobufFieldName := "delta_node_uuid",
      ProtobufType := "string", ProtobufPos := 10 } ] }

/-- The method `(*ContentMinerLogs).TableName`. -/
def ContentMinerLogs.TableName : String :=
  "content_miner_logs"

/-- The method `(*ContentMinerLogs).TableInfo`. -/
def ContentMinerLogs.TableInfo : TableInfo :=
  content_miner_logsTableInfo

/-- The descriptor `content_wallet_logsTableInfo` of `model/content_wallet_logs.go`. -/
def content_wallet_logsTableInfo : TableInfo :=
  { Name := "content_wallet_logs",
    Columns := [
    { Index := 0, Name := "id", Comment := "", Notes := "", Nullable := false,
      DatabaseTypeName := "INT8", DatabaseTypePretty := "INT8", IsPrimaryKey := true,
      IsAutoIncrement := false, IsArray := false, ColumnType := "INT8", ColumnLength := -1,
      GoFieldName := "ID", GoFieldType := "int64", JSONFieldName := "id",
      ProtobufFieldName := "id", ProtobufType := "int32", ProtobufPos := 1 },
    { Index := 1, Name := "content", Comment := "", Notes := "", Nullable := true,
      DatabaseTypeName := "INT8", DatabaseTypePretty := "INT8", IsPrimaryKey := false,
      IsAutoIncrement := false, IsArray := false, ColumnType := "INT8", ColumnLength := -1,
      GoFieldName := "Content", GoFieldType := "null.Int", JSONFieldName := "content",
      ProtobufFieldName := "content", ProtobufType := "int32", ProtobufPos := 2 },
    { Index := 2, Name := "wallet", Comment := "", Notes := "", Nullable := true,
      DatabaseTypeName := "TEXT", DatabaseTypePretty := "TEXT", IsPrimaryKey := false,
      IsAutoIncrement := false, IsArray := false, ColumnType := "TEXT", ColumnLength := -1,
      GoFieldName := "Wallet", GoFieldType := "null.String", JSONFieldName := "wallet",
      ProtobufFieldName := "wallet", ProtobufType := "string", ProtobufPos := 3 },
    { Index := 3, Name := "node_info", Comment := "", Notes := "", Nullable := true,
      DatabaseTypeName := "TEXT", DatabaseTypePretty := "TEXT", IsPrimaryKey := false,
      IsAutoIncrement := false, IsArray := false, ColumnType := "TEXT", ColumnLength := -1,
      GoFieldName := "NodeInfo", GoFieldType := "null.String", JSONFieldName := "nodeInfo",
      ProtobufFieldName := "node_info", ProtobufType := "string", ProtobufPos := 4 },
    { Index := 4, Name := "requester_info", Comment := "", Notes := "", Nullable := true,
      DatabaseTypeName := "TEXT", DatabaseTypePretty := "TEXT", IsPrimaryKey := false,
      IsAutoIncrement := false, IsArray := false, ColumnType := "TEXT", ColumnLength := -1,
      GoFieldName := "RequesterInfo", GoFieldType := "null.String",
      JSONFieldName := "requesterInfo", ProtobufFieldName := "requester_info",
      ProtobufType := "string", ProtobufPos := 5 },
    { Index := 5, Name := "requesting_api_key", Comment := "", Notes := "", Nullable := true,
      DatabaseTypeName := "TEXT", DatabaseTypePretty := "TEXT", IsPrimaryKey := false,
      IsAutoIncrement := false, IsArray := false, ColumnType := "TEXT", ColumnLength := -1,
      GoFieldName := "RequestingAPIKey", GoFieldType := "null.String",
      JSONFieldName := "requestingApiKey", ProtobufFieldName := "requesting_api_key",
      ProtobufType := "string", ProtobufPos := 6 },
    { Index := 6, Name := "system_content_wallet_id", Comment := "", Notes := "",
      Nullable := true, DatabaseTypeName := "INT8", DatabaseTypePretty := "INT8",
      IsPrimaryKey := false, IsAutoIncrement := false, IsArray := false, ColumnType := "INT8",
      ColumnLength := -1, GoFieldName := "SystemContentWalletID", GoFieldType := "null.Int",
      JSONFieldName := "systemContentWalletId", ProtobufFieldName := "system_content_wallet_id",
      ProtobufType := "int32", ProtobufPos := 7 },
    { Index := 7, Name := "created_at", Comment := "", Notes := "", Nullable := true,
      DatabaseTypeName := "TIMESTAMPTZ", DatabaseTypePretty := "TIMESTAMPTZ",
      IsPrimaryKey := false, IsAutoIncrement := false, IsArray := false,
      ColumnType := "TIMESTAMPTZ", ColumnLength := -1, GoFieldName := "CreatedAt",
      GoFieldType := "null.Time", JSONFieldName := "createdAt",
      ProtobufFieldName := "created_at", ProtobufType := "uint64", ProtobufPos := 8 },
    { Index := 8, Name := "updated_at", Comment := "", Notes := "", Nullable := true,
      DatabaseTypeName := "TIMESTAMPTZ", DatabaseTypePretty := "TIMESTAMPTZ",
      IsPrimaryKey := false, IsAutoIncrement := false, IsArray := false,
      ColumnType := "TIMESTAMPTZ", ColumnLength := -1, GoFieldName := "UpdatedAt",
      GoFieldType := "null.Time", JSONFieldName := "updatedAt",
      ProtobufFieldName := "updated_at", ProtobufType := "uint64", ProtobufPos := 9 },
    { Index := 9, Name := "delta_node_uuid", Comment := "", Notes := "", Nullable := true,
      DatabaseTypeName := "TEXT", DatabaseTypePretty := "TEXT", IsPrimaryKey := false,
      IsAutoIncrement := false, IsArray := false, ColumnType := "TEXT", ColumnLength := -1,
      GoFieldName := "DeltaNodeUUID", GoFieldType := "null.String",
      JSONFieldName := "deltaNodeUuid", ProtobufFieldName := "delta_node_uuid",
      ProtobufType := "string", ProtobufPos := 10 },
    { Index := 10, Name := "wallet_id", Comment := "", Notes := "", Nullable := true,
      DatabaseTypeName := "INT8", DatabaseTypePretty := "INT8", IsPrimaryKey := false,
      IsAutoIncrement := false, IsArray := false, ColumnType := "INT8", ColumnLength := -1,
      GoFieldName := "WalletID", GoFieldType := "null.Int", JSONFieldName := "walletId",
      ProtobufFieldName := "wallet_id", ProtobufType := "int32", ProtobufPos := 11 } ] }

/-- The method `(*ContentWalletLogs).TableName`. -/
def ContentWalletLogs.TableName : String :=
  "content_wallet_logs"

/-- The method `(*ContentWalletLogs).TableInfo`. -/
def ContentWalletLogs.TableInfo : TableInfo :=
  content_wallet_logsTableInfo

/-- The columns of a descriptor that are flagged as primary key. -/
def TableInfo.primaryKeys (t : TableInfo) : List ColumnInfo :=
  t.Columns.filter (fun c => c.IsPrimaryKey)

end Model

/-! # Package `main`: the view refresh scheduler -/

namespace Main

/-- What running code leaves behind, in order: a line on standard output
(`fmt.Println`), a line of the logger (`log.Printf`, `log.Println`; neither ends
the process), the logging of the handle a store `Exec` returned, with the error
the handle carries, and a statement sent to the store (`dao.DB.Exec`). -/
inductive Event where
  | stdout (line : String)
  | logReadError (script : String) (err : String)
  | logError (err : String)
  | logHandle (err : Option String)
  | exec (sql : String)
  deriving DecidableEq, Repr

/-- How a function body ends: it returns to its caller, or it ends the process
(`log.Fatalf`, as `main` does on a startup error). -/
inductive Ending where
  | returned
  | exited
  deriving DecidableEq, Repr

/-- The two results of `os.ReadFile`: the bytes read and the error, if any. -/
structure FileRead where
  data : String
  err : Option String
  deriving DecidableEq, Repr

/-- What happens to one run of a job: the result of reading its script and the
error, if any, of the store `Exec`. -/
structure Outcome where
  file : FileRead
  execErr : Option String
  deriving DecidableEq, Repr

/-- The body of the job "Refresh Stats Views" (lines 181 to 191). The text is
taken from the bytes read before the error is looked at; a read error is logged
and the body goes on; `Exec` returns a handle, which is never nil, so the handle
is logged on every run. -/
def refreshStatsJob (o : Outcome) : List Event × Ending :=
  let out := [Event.stdout "Refresh Stats Views"]
  let refreshViewsStr := o.file.data
  let out :=
    match o.file.err with
    | some err => out ++ [Event.logReadError "refresh_mv_stats.sql" err]
    | none => out
  let out := out ++ [Event.exec refreshViewsStr]
  let out := out ++ [Event.logHandle o.execErr]
  (out, .returned)

/-- The body of the job "Refresh All Table Views" (lines 196 to 206). -/
def refreshAllTablesJob (o : Outcome) : List Event × Ending :=
  let out := [Event.stdout "Refresh All Table Views"]
  let refreshViewsStr := o.file.data
  let out :=
    match o.file.err with
    | some err => out ++ [Event.logError err]
    | none => out
  let out := out ++ [Event.exec refreshViewsStr]
  let out := out ++ [Event.logHandle o.execErr]
  (out, .returned)

/-- The two jobs of `RefreshDBViews`. -/
inductive JobName where
  | refreshStats
  | refreshAllTables
  deriving DecidableEq, Repr

/-- A job of the scheduler: its body and its period in hours. -/
structure Job where
  name : JobName
  everyHours : Nat
  deriving DecidableEq, Repr

/-- The scheduler `gocron.NewScheduler(time.UTC)`: the registered jobs and
whether it has been started. -/
structure Scheduler where
  jobs : List Job
  started : Bool
  deriving DecidableEq, Repr

/-- The call `gocron.NewScheduler(time.UTC)`. -/
def NewScheduler : Scheduler :=
  { jobs := [], started := false }

/-- The call `s.Every(n).Hours().Do(body)`: registers the job, or reports an
error and registers nothing. -/
def Scheduler.Do (s : Scheduler) (regErr : Option String) (j : Job) :
    Scheduler × Option String :=
  match regErr with
  | some e => (s, some e)
  | none => ({ s with jobs := s.jobs ++ [j] }, none)

/-- The call `s.StartAsync()`. -/
def Scheduler.StartAsync (s : Scheduler) : Scheduler :=
  { s with started := true }

/-- `RefreshDBViews()`: registers the two jobs, each every 4 hours, and starts
the scheduler. The error of the first registration is logged, the error of the
second is not looked at; the function prints the two job handles. -/
def RefreshDBViews (regErr1 regErr2 : Option String) : Scheduler × List Event :=
  let s := NewScheduler
  let (s, err) := s.Do regErr1 { name := .refreshStats, everyHours := 4 }
  let out : List Event :=
    match err with
    | some e => [Event.logError e]
    | none => []
  let (s, _) := s.Do regErr2 { name := .refreshAllTables, everyHours := 4 }
  let out := out ++ [Event.stdout "jobRefreshGlobalStats", Event.stdout "jobRefreshAllTables"]
  (s.StartAsync, out)

/-- The body of a job. -/
def runJob (j : Job) (o : Outcome) : List Event × Ending :=
  match j.name with
  | .refreshStats => refreshStatsJob o
  | .refreshAllTables => refreshAllTablesJob o

/-- One firing of the registered jobs, each with its own outcome. A job that
ended the process would keep the jobs after it from running. -/
def fire : List Job → (JobName → Outcome) → List Event × Ending
  | [], _ => ([], .returned)
  | j :: js, env =>
    match runJob j (env j.name) with
    | (ev, .exited) => (ev, .exited)
    | (ev, .returned) =>
      match fire js env with
      | (ev1, ending) => (ev ++ ev1, ending)

/-- The firings of a scheduler, one per element of `envs` (the firing at start
and then one per period); a scheduler that was not started fires nothing, and
nothing fires after the process has ended. -/
def Scheduler.run (s : Scheduler) : List (JobName → Outcome) → List (List Event) × Ending
  | [] => ([], .returned)
  | env :: envs =>
    if s.started then
      match fire s.jobs env with
      | (ev, .exited) => ([ev], .exited)
      | (ev, .returned) =>
        match s.run envs with
        | (evs, ending) => (ev :: evs, ending)
    else ([], .returned)

end Main

namespace Dao

/-! ## Helper lemmas -/

theorem wrapInt64_of_isInt64 (x : Int) (h : isInt64 x) : wrapInt64 x = x := by
  unfold isInt64 at h
  unfold wrapInt64
  omega

theorem listQuery_eq (page pagesize : Int) (order : String) :
    listQuery page pagesize order =
      { offset := if page > 0 then some (wrapInt64 ((page - 1) * pagesize)) else none,
        limit := some pagesize,
        order := if order ≠ "" then some order else none } := by
  unfold listQuery
  by_cases hp : page > 0 <;> by_cases ho : order ≠ "" <;>
    simp [hp, ho, Query.Model, Query.Offset, Query.Limit, Query.Order]

theorem applyLimit_length_le {α : Type} (n : Int) (hn : 0 ≤ n) (l : List α) :
    ((applyLimit (some n) l).length : Int) ≤ n := by
  simp only [applyLimit, hn, if_true, List.length_take]
  omega

theorem find_take_drop {α : Type} (o n : Int) (ho : 0 ≤ o) (hn : 0 ≤ n) (l : List α) :
    applyLimit (some n) (applyOffset (some o) l) = rowsAt l o (o + n) := by
  simp only [applyLimit, applyOffset, rowsAt, ho, hn, if_true]
  rw [List.take_drop, Int.toNat_add ho hn]

theorem find_take {α : Type} (n : Int) (hn : 0 ≤ n) (l : List α) :
    applyLimit (some n) l = rowsAt l 0 n := by
  simp [applyLimit, rowsAt, hn]

theorem getAll_ok (ord : String → List PieceCommitmentLogs → List PieceCommitmentLogs)
    (db : DB) (countFault : Option StoreError) (page pagesize : Int) (order : String) :
    GetAllPieceCommitmentLogs ord db countFault none page pagesize order =
      (some (applyLimit (some pagesize)
          (applyOffset (if page > 0 then some (wrapInt64 ((page - 1) * pagesize)) else none)
            (orderedRows ord db order))),
        (match db.Count countFault with
          | .ok n => n
          | .error _ => 0),
        none) := by
  simp only [GetAllPieceCommitmentLogs, DB.Find, listQuery_eq, orderedRows]

theorem getAll_error (ord : String → List PieceCommitmentLogs → List PieceCommitmentLogs)
    (db : DB) (countFault : Option StoreError) (e : StoreError)
    (page pagesize : Int) (order : String) :
    GetAllPieceCommitmentLogs ord db countFault (some e) page pagesize order =
      (none, -1, some .ErrNotFound) := by
  simp only [GetAllPieceCommitmentLogs, DB.Find]

/-! ## C1: pagination window -/

/-- C1 (amended): for `int64` arguments with `0 <= pagesize`,
`GetAllPieceCommitmentLogs` builds a query with no offset when `page <= 0`, with
`Offset((page-1)*pagesize)` computed in `int64` when `page >= 1`, and with
`Limit(pagesize)` in both cases. When `Find` succeeds the returned page has at
most `pagesize` records, is the rows at positions `[0, pagesize)` of the ordered
result for `page <= 0` and `page = 1`, the rows at positions `[N, 2N)` for
`page = 2` and `pagesize = N`, and, whenever `(page-1)*pagesize` does not
overflow `int64`, the rows at positions `[offset, offset+pagesize)` with
`offset = (page-1)*pagesize`. -/
theorem getAll_page_window
    (ord : String → List PieceCommitmentLogs → List PieceCommitmentLogs)
    (db : DB) (countFault : Option StoreError) (page pagesize : Int) (order : String)
    (hsize : isInt64 pagesize) (h0 : 0 ≤ pagesize) :
    (page ≤ 0 → (listQuery page pagesize order).offset = none) ∧
    (1 ≤ page →
      (listQuery page pagesize order).offset = some (wrapInt64 ((page - 1) * pagesize))) ∧
    (listQuery page pagesize order).limit = some pagesize ∧
    ∃ results,
      (GetAllPieceCommitmentLogs ord db countFault none page pagesize order).1
        = some results ∧
      (results.length : Int) ≤ pagesize ∧
      (page ≤ 1 → results = rowsAt (orderedRows ord db order) 0 pagesize) ∧
      (page = 2 →
        results = rowsAt (orderedRows ord db order) pagesize (pagesize + pagesize)) ∧
      (1 ≤ page → (page - 1) * pagesize < 2 ^ 63 →
        results = rowsAt (orderedRows ord db order)
          ((page - 1) * pagesize) ((page - 1) * pagesize + pagesize)) := by
  refine ⟨?_, ?_, ?_, _, by rw [getAll_ok], applyLimit_length_le _ h0 _, ?_, ?_, ?_⟩
  · intro hp
    have : ¬ page > 0 := by omega
    simp [listQuery_eq, this]
  · intro hp
    have : page > 0 := by omega
    simp [listQuery_eq, this]
  · simp [listQuery_eq]
  · intro hp
    by_cases h1 : page > 0
    · have h : page = 1 := by omega
      subst h
      have hw : wrapInt64 ((1 - 1) * pagesize) = 0 := by
        simp [wrapInt64]
      simp only [h1, if_true, hw]
      rw [find_take_drop 0 pagesize (le_refl 0) h0]
      simp
    · simp only [h1, if_false, applyOffset]
      exact find_take pagesize h0 _
  · intro hp
    subst hp
    have hw : wrapInt64 ((2 - 1) * pagesize) = pagesize := by
      rw [show ((2 : Int) - 1) * pagesize = pagesize by ring]
      exact wrapInt64_of_isInt64 _ hsize
    simp only [show (2 : Int) > 0 by decide, if_true, hw]
    exact find_take_drop pagesize pagesize h0 h0 _
  · intro hp hlt
    have hpos : page > 0 := by omega
    have hnn : 0 ≤ (page - 1) * pagesize := mul_nonneg (by omega) h0
    have hw : wrapInt64 ((page - 1) * pagesize) = (page - 1) * pagesize :=
      wrapInt64_of_isInt64 _ ⟨by omega, hlt⟩
    simp only [hpos, if_true, hw]
    exact find_take_drop _ pagesize hnn h0 _

/-- Witness of `getAll_page_window`: page 2 of size 1 over three rows. -/
theorem getAll_page_window_witness :
    isInt64 1 ∧ (0 : Int) ≤ 1 ∧
    ∃ results,
      (GetAllPieceCommitmentLogs (fun _ l => l)
        ⟨[⟨1, [], 0, 0⟩, ⟨2, [], 0, 0⟩, ⟨3, [], 0, 0⟩], 3⟩ none none 2 1 "").1
          = some results ∧
      (results.length : Int) ≤ 1 ∧
      results = rowsAt
        (orderedRows (fun _ l => l)
          ⟨[⟨1, [], 0, 0⟩, ⟨2, [], 0, 0⟩, ⟨3, [], 0, 0⟩], 3⟩ "") 1 (1 + 1) := by
  have h := getAll_page_window (fun _ l => l)
    ⟨[⟨1, [], 0, 0⟩, ⟨2, [], 0, 0⟩, ⟨3, [], 0, 0⟩], 3⟩
    none 2 1 "" (by decide) (by decide)
  obtain ⟨_, _, _, results, h1, h2, _, h4, _⟩ := h
  exact ⟨by decide, by decide, results, h1, h2, h4 rfl⟩

/-- C1 as stated fails on `int64` overflow: for `page = 2^62 + 1` and
`pagesize = 2` the offset `(page-1)*pagesize = 2^63` wraps to `-2^63`, the store
leaves a negative offset out, and the page returned over three rows is the first
two rows; the rows at positions `[offset, offset+2)` are none, both for the exact
offset `2^63` and for the wrapped one. -/
theorem getAll_page_overflow_counterexample :
    isInt64 (2 ^ 62 + 1) ∧ isInt64 2 ∧
    (listQuery (2 ^ 62 + 1) 2 "").offset = some (-(2 ^ 63)) ∧
    (GetAllPieceCommitmentLogs (fun _ l => l)
      ⟨[⟨1, [], 0, 0⟩, ⟨2, [], 0, 0⟩, ⟨3, [], 0, 0⟩], 3⟩
      none none (2 ^ 62 + 1) 2 "").1
        = some [⟨1, [], 0, 0⟩, ⟨2, [], 0, 0⟩] ∧
    rowsAt
      (orderedRows (fun _ l => l) ⟨[⟨1, [], 0, 0⟩, ⟨2, [], 0, 0⟩, ⟨3, [], 0, 0⟩], 3⟩ "")
      ((2 ^ 62 + 1 - 1) * 2) ((2 ^ 62 + 1 - 1) * 2 + 2) = [] ∧
    rowsAt
      (orderedRows (fun _ l => l) ⟨[⟨1, [], 0, 0⟩, ⟨2, [], 0, 0⟩, ⟨3, [], 0, 0⟩], 3⟩ "")
      (wrapInt64 ((2 ^ 62 + 1 - 1) * 2)) (wrapInt64 ((2 ^ 62 + 1 - 1) * 2) + 2) = [] := by
  refine ⟨by decide, by decide, by decide, by decide, by decide, by decide⟩

/-! ## C2: the total row count -/

/-- C2, the code at the failing input: over a table of three rows, `Count` is
hit by a store error and `Find` is not. `List(page=1, pageSize=2)` succeeds with
a nil error and the first two rows, and its `totalRows` is 0, not the 3 rows of
the table: the error of `Count` is not looked at, `totalRows` keeps its zero
value. The same holds for every table, page, page size and order. -/
theorem getAll_count_error_total_is_zero :
    GetAllPieceCommitmentLogs (fun _ l => l)
      ⟨[⟨1, [], 0, 0⟩, ⟨2, [], 0, 0⟩, ⟨3, [], 0, 0⟩], 3⟩
      (some (.failure "connection reset")) none 1 2 ""
        = (some [⟨1, [], 0, 0⟩, ⟨2, [], 0, 0⟩], 0, none) ∧
    (⟨[⟨1, [], 0, 0⟩, ⟨2, [], 0, 0⟩, ⟨3, [], 0, 0⟩], 3⟩ : DB).rows.length = 3 ∧
    ∀ (ord : String → List PieceCommitmentLogs → List PieceCommitmentLogs) (db : DB)
      (e : StoreError) (page pagesize : Int) (order : String),
      (GetAllPieceCommitmentLogs ord db (some e) none page pagesize order).2
        = (0, none) := by
  refine ⟨by decide, by decide, ?_⟩
  intro ord db e page pagesize order
  rw [getAll_ok]
  rfl

/-- The part of C2 that holds: when `Count` reports no error and the function
returns a nil error, the `totalRows` returned by `GetAllPieceCommitmentLogs` is
the number of rows of the whole table; every other `page`, `pagesize` and `order`
gives the same `totalRows`; and it is not the length of the returned page: page 1
of size 2 over three rows has two records and `totalRows = 3`. -/
theorem getAll_totalRows_is_table_count
    (ord : String → List PieceCommitmentLogs → List PieceCommitmentLogs)
    (db : DB) (findFault : Option StoreError) (page pagesize : Int) (order : String)
    (hok : (GetAllPieceCommitmentLogs ord db none findFault page pagesize order).2.2
      = none) :
    (GetAllPieceCommitmentLogs ord db none findFault page pagesize order).2.1
      = db.rows.length ∧
    (∀ (page1 pagesize1 : Int) (order1 : String),
      (GetAllPieceCommitmentLogs ord db none findFault page1 pagesize1 order1).2.2
        = none ∧
      (GetAllPieceCommitmentLogs ord db none findFault page1 pagesize1 order1).2.1
        = (GetAllPieceCommitmentLogs ord db none findFault page pagesize order).2.1) ∧
    GetAllPieceCommitmentLogs (fun _ l => l)
      ⟨[⟨1, [], 0, 0⟩, ⟨2, [], 0, 0⟩, ⟨3, [], 0, 0⟩], 3⟩ none none 1 2 ""
        = (some [⟨1, [], 0, 0⟩, ⟨2, [], 0, 0⟩], 3, none) := by
  cases findFault with
  | some e => simp [getAll_error] at hok
  | none =>
    refine ⟨by simp [getAll_ok, DB.Count], fun p1 s1 o1 => ?_, by decide⟩
    simp [getAll_ok, DB.Count]

/-- Witness of `getAll_totalRows_is_table_count`: page 2 of size 1 over three
rows, ordered by `id`. -/
theorem getAll_totalRows_is_table_count_witness :
    (GetAllPieceCommitmentLogs (fun _ l => l)
      ⟨[⟨1, [], 0, 0⟩, ⟨2, [], 0, 0⟩, ⟨3, [], 0, 0⟩], 3⟩ none none 2 1 "id").2.2 = none ∧
    (GetAllPieceCommitmentLogs (fun _ l => l)
      ⟨[⟨1, [], 0, 0⟩, ⟨2, [], 0, 0⟩, ⟨3, [], 0, 0⟩], 3⟩ none none 2 1 "id").2.1
        = (3 : Nat) :=
  ⟨by decide,
    (getAll_totalRows_is_table_count (fun _ l => l)
      ⟨[⟨1, [], 0, 0⟩, ⟨2, [], 0, 0⟩, ⟨3, [], 0, 0⟩], 3⟩ none 2 1 "id" (by decide)).1⟩

/-! ## C3: failure of the list query -/

/-- C3: `GetAllPieceCommitmentLogs` returns a non-nil error if and only if the
store's `Find` reports an error; it then returns exactly `(nil, -1, ErrNotFound)`,
whatever the error of the store was; a `Find` that matches zero rows is not a
failure: the function returns the empty page, a nil error and the total row
count (the number of rows of the table when `Count` reported no error). -/
theorem getAll_fails_iff_find_errors
    (ord : String → List PieceCommitmentLogs → List PieceCommitmentLogs)
    (db : DB) (countFault findFault : Option StoreError)
    (page pagesize : Int) (order : String) :
    ((GetAllPieceCommitmentLogs ord db countFault findFault page pagesize order).2.2
        ≠ none ↔
      ∃ e, db.Find ord findFault (listQuery page pagesize order) = .error e) ∧
    (∀ e, db.Find ord findFault (listQuery page pagesize order) = .error e →
      GetAllPieceCommitmentLogs ord db countFault findFault page pagesize order
        = (none, -1, some .ErrNotFound)) ∧
    (db.Find ord findFault (listQuery page pagesize order) = .ok [] →
      (GetAllPieceCommitmentLogs ord db countFault findFault page pagesize order).1
        = some [] ∧
      (GetAllPieceCommitmentLogs ord db countFault findFault page pagesize order).2.2
        = none ∧
      (GetAllPieceCommitmentLogs ord db none findFault page pagesize order).2.1
        = db.rows.length) := by
  cases hf : db.Find ord findFault (listQuery page pagesize order) with
  | error e =>
    refine ⟨?_, ?_, ?_⟩
    · simp [GetAllPieceCommitmentLogs, hf]
    · intro e1 _
      simp [GetAllPieceCommitmentLogs, hf]
    · intro h
      cases h
  | ok rs =>
    refine ⟨?_, ?_, ?_⟩
    · simp [GetAllPieceCommitmentLogs, hf]
    · intro e1 h
      cases h
    · intro h
      cases h
      simp [GetAllPieceCommitmentLogs, hf, DB.Count]

/-- Witness of `getAll_fails_iff_find_errors`: a store error on `Find` over a
table of one row, and page 5 of size 1 (zero matching rows) over the same table. -/
theorem getAll_fails_iff_find_errors_witness :
    GetAllPieceCommitmentLogs (fun _ l => l) ⟨[⟨1, [], 0, 0⟩], 1⟩ none
      (some (.failure "connection refused")) 1 10 "" = (none, -1, some .ErrNotFound) ∧
    (GetAllPieceCommitmentLogs (fun _ l => l) ⟨[⟨1, [], 0, 0⟩], 1⟩ none none 5 1 "").1
      = some [] ∧
    (GetAllPieceCommitmentLogs (fun _ l => l) ⟨[⟨1, [], 0, 0⟩], 1⟩ none none 5 1 "").2.2
      = none ∧
    (GetAllPieceCommitmentLogs (fun _ l => l) ⟨[⟨1, [], 0, 0⟩], 1⟩ none none 5 1 "").2.1
      = (1 : Nat) :=
  ⟨(getAll_fails_iff_find_errors (fun _ l => l) ⟨[⟨1, [], 0, 0⟩], 1⟩ none
      (some (.failure "connection refused")) 1 10 "").2.1 _ rfl,
    (getAll_fails_iff_find_errors (fun _ l => l) ⟨[⟨1, [], 0, 0⟩], 1⟩ none none 5 1 "").2.2
      rfl⟩

/-! ## Lemmas on the fetch by primary key -/

theorem first_error_of_not_hasKey (db : DB) (fault : Option StoreError) (id : Int)
    (h : db.hasKey id = false) : ∃ e, db.First fault id = .error e := by
  cases fault with
  | some e => exact ⟨e, rfl⟩
  | none =>
    have hnone : db.rows.find? (fun r => r.ID == id) = none := by
      rw [List.find?_eq_none]
      intro x hx hpx
      have : db.hasKey id = true := List.any_eq_true.mpr ⟨x, hx, hpx⟩
      rw [h] at this
      cases this
    exact ⟨.ErrRecordNotFound, by simp [DB.First, hnone]⟩

theorem first_ok_inv (db : DB) (fault : Option StoreError) (id : Int)
    (r : PieceCommitmentLogs) (h : db.First fault id = .ok r) :
    fault = none ∧ r ∈ db.rows ∧ r.ID = id ∧
      db.rows.find? (fun x => x.ID == id) = some r := by
  cases fault with
  | some e => simp [DB.First] at h
  | none =>
    cases hf : db.rows.find? (fun x => x.ID == id) with
    | none => simp [DB.First, hf] at h
    | some x =>
      simp only [DB.First, hf, Except.ok.injEq] at h
      subst h
      refine ⟨rfl, List.mem_of_find?_eq_some hf, ?_, rfl⟩
      have := List.find?_some hf
      simpa using this

theorem first_ok_of_hasKey (db : DB) (id : Int) (h : db.hasKey id = true) :
    ∃ r, db.First none id = .ok r := by
  obtain ⟨x, hx, hpx⟩ := List.any_eq_true.mp h
  cases hf : db.rows.find? (fun r => r.ID == id) with
  | none =>
    rw [List.find?_eq_none] at hf
    exact absurd hpx (hf x hx)
  | some r => exact ⟨r, by simp [DB.First, hf]⟩

theorem hasKey_false_after_delete (db db1 : DB) (fault : Option StoreError)
    (r : PieceCommitmentLogs) (n : Int) (h : db.Delete fault r = .ok (n, db1)) :
    db1.hasKey r.ID = false := by
  cases fault with
  | some e => simp [DB.Delete] at h
  | none =>
    by_cases h0 : r.ID ≠ 0
    · simp only [DB.Delete, if_pos h0, Except.ok.injEq, Prod.mk.injEq] at h
      rw [← h.2]
      simp [DB.hasKey]
    · simp only [DB.Delete, if_neg h0, Except.ok.injEq, Prod.mk.injEq] at h
      rw [← h.2]
      simp [DB.hasKey]

/-! ## C4: operations on a missing id -/

/-- C4: for every table and every id that is not the primary key of a stored
record, `GetPieceCommitmentLogs(id)`, `UpdatePieceCommitmentLogs(id, patch)` for
every patch and `DeletePieceCommitmentLogs(id)` all fail with `ErrNotFound`
(so never with `ErrUpdateFailed` or `ErrDeleteFailed`), whichever store errors
hit the calls. -/
theorem missing_id_fails_with_notFound (schema : List Kind) (db : DB)
    (getFault firstFault saveFault firstFault1 deleteFault : Option StoreError)
    (now id : Int) (patch : PieceCommitmentLogs) (h : db.hasKey id = false) :
    (GetPieceCommitmentLogs schema db getFault id).2 = some .ErrNotFound ∧
    (UpdatePieceCommitmentLogs db firstFault saveFault now id patch).1.2.2
      = some .ErrNotFound ∧
    (DeletePieceCommitmentLogs db firstFault1 deleteFault id).1.2
      = some .ErrNotFound := by
  obtain ⟨e1, h1⟩ := first_error_of_not_hasKey db getFault id h
  obtain ⟨e2, h2⟩ := first_error_of_not_hasKey db firstFault id h
  obtain ⟨e3, h3⟩ := first_error_of_not_hasKey db firstFault1 id h
  refine ⟨?_, ?_, ?_⟩
  · simp [GetPieceCommitmentLogs, h1]
  · simp [UpdatePieceCommitmentLogs, h2]
  · simp [DeletePieceCommitmentLogs, h3]

/-- Witness of `missing_id_fails_with_notFound`: id 7 in a table holding the
keys 1 and 2. -/
theorem missing_id_fails_with_notFound_witness :
    (GetPieceCommitmentLogs [.nullText]
      ⟨[⟨1, [.nullText none], 0, 0⟩, ⟨2, [.nullText none], 0, 0⟩], 2⟩ none 7).2
        = some .ErrNotFound ∧
    (UpdatePieceCommitmentLogs
      ⟨[⟨1, [.nullText none], 0, 0⟩, ⟨2, [.nullText none], 0, 0⟩], 2⟩ none none 100 7
        ⟨0, [.nullText (some "x")], 0, 0⟩).1.2.2 = some .ErrNotFound ∧
    (DeletePieceCommitmentLogs
      ⟨[⟨1, [.nullText none], 0, 0⟩, ⟨2, [.nullText none], 0, 0⟩], 2⟩ none none 7).1.2
        = some .ErrNotFound :=
  missing_id_fails_with_notFound [.nullText]
    ⟨[⟨1, [.nullText none], 0, 0⟩, ⟨2, [.nullText none], 0, 0⟩], 2⟩
    none none none none none 100 7 ⟨0, [.nullText (some "x")], 0, 0⟩ (by decide)

/-! ## Lemmas on the merge and on `Save` -/

theorem find?_map_update (l : List PieceCommitmentLogs) (k : Int)
    (f : PieceCommitmentLogs → PieceCommitmentLogs) (hf : ∀ x, (f x).ID = k) :
    (l.map (fun x => if x.ID == k then f x else x)).find? (fun x => x.ID == k)
      = (l.find? (fun x => x.ID == k)).map f := by
  induction l with
  | nil => rfl
  | cons a l ih =>
    by_cases ha : a.ID = k
    · have hb : (a.ID == k) = true := by simpa using ha
      have hsel : (if (a.ID == k) = true then f a else a) = f a := by simp [ha]
      have hfb : ((f a).ID == k) = true := by simpa using hf a
      rw [List.map_cons, List.find?_cons, hsel, hfb, List.find?_cons, hb]
      rfl
    · have hb : (a.ID == k) = false := by simpa using ha
      have hsel : (if (a.ID == k) = true then f a else a) = a := by simp [ha]
      rw [List.map_cons, List.find?_cons, hsel, hb, List.find?_cons, hb]
      exact ih

theorem find?_append_new (l : List PieceCommitmentLogs) (r : PieceCommitmentLogs)
    (h : ∀ x ∈ l, x.ID ≠ r.ID) :
    (l ++ [r]).find? (fun x => x.ID == r.ID) = some r := by
  induction l with
  | nil => simp
  | cons a l ih =>
    have ha : a.ID ≠ r.ID := h a (List.mem_cons_self a l)
    have hb : (a.ID == r.ID) = false := by simpa using ha
    simp only [List.cons_append, List.find?_cons, hb]
    exact ih (fun x hx => h x (List.mem_cons_of_mem a hx))

theorem not_hasKey_iff (db : DB) (id : Int) :
    db.hasKey id = false ↔ ∀ x ∈ db.rows, x.ID ≠ id := by
  simp [DB.hasKey]

theorem first_append_new (db : DB) (r : PieceCommitmentLogs) (seq : Nat)
    (h : db.hasKey r.ID = false) :
    (DB.mk (db.rows ++ [r]) seq).First none r.ID = .ok r := by
  simp only [DB.First]
  rw [find?_append_new db.rows r ((not_hasKey_iff db r.ID).mp h)]

theorem save_spec (db db1 : DB) (fault : Option StoreError) (now : Int)
    (r res : PieceCommitmentLogs) (n : Int)
    (h : db.Save fault now r = .ok (res, n, db1)) :
    res.cols = r.cols ∧
    (r.ID ≠ 0 → res.ID = r.ID ∧ res.UpdatedAt = now) ∧
    (r.ID = 0 → res.ID = (db.seq : Int) + 1 ∧
      res.UpdatedAt = (if r.UpdatedAt = 0 then now else r.UpdatedAt)) ∧
    (r.CreatedAt ≠ 0 → res.CreatedAt = r.CreatedAt) ∧
    (r.ID ≠ 0 → db.hasKey r.ID = true → res.CreatedAt = r.CreatedAt) ∧
    ∃ g, db1.First none res.ID = .ok g ∧ g.ID = res.ID ∧ g.cols = res.cols ∧
      g.UpdatedAt = res.UpdatedAt ∧
      (res.CreatedAt ≠ 0 → g.CreatedAt = res.CreatedAt) ∧
      (∀ x, db.rows.find? (fun y => y.ID == r.ID) = some x → r.ID ≠ 0 →
        res.CreatedAt = 0 → g.CreatedAt = x.CreatedAt) := by
  cases fault with
  | some e => simp [DB.Save] at h
  | none =>
    by_cases h0 : r.ID ≠ 0
    · by_cases hk : db.hasKey r.ID = true
      · simp only [DB.Save, if_pos h0, if_pos hk, Except.ok.injEq, Prod.mk.injEq] at h
        obtain ⟨h1, _, h3⟩ := h
        subst h1
        subst h3
        obtain ⟨x, hx⟩ := first_ok_of_hasKey db r.ID hk
        have hfind := (first_ok_inv db none r.ID x hx).2.2.2
        refine ⟨rfl, fun _ => ⟨rfl, rfl⟩, fun hz => absurd hz h0, fun _ => rfl,
          fun _ _ => rfl, ?_⟩
        refine ⟨PieceCommitmentLogs.mk r.ID r.cols
            (if r.CreatedAt = 0 then x.CreatedAt else r.CreatedAt) now,
          ?_, rfl, rfl, rfl, ?_, ?_⟩
        · simp only [DB.First]
          have hm := find?_map_update db.rows r.ID
            (fun y => PieceCommitmentLogs.mk r.ID r.cols
              (if r.CreatedAt = 0 then y.CreatedAt else r.CreatedAt) now) (fun _ => rfl)
          rw [hfind] at hm
          exact congrArg (fun o : Option PieceCommitmentLogs =>
            match o with
            | some r => Except.ok r
            | none => Except.error StoreError.ErrRecordNotFound) hm
        · intro hc
          have hc1 : r.CreatedAt ≠ 0 := hc
          simp [hc1]
        · intro y hy _ hc
          rw [hfind] at hy
          have hxy : x = y := Option.some.inj hy
          subst hxy
          have hc1 : r.CreatedAt = 0 := hc
          simp [hc1]
      · have hk1 : db.hasKey r.ID = false := by simpa using hk
        simp only [DB.Save, if_pos h0, if_neg hk, Except.ok.injEq, Prod.mk.injEq] at h
        obtain ⟨h1, _, h3⟩ := h
        subst h1
        subst h3
        refine ⟨rfl, fun _ => ⟨rfl, rfl⟩, fun hz => absurd hz h0, ?_,
          fun _ hk2 => absurd hk2 hk, ?_⟩
        · intro hc
          simp [hc]
        · refine ⟨_, first_append_new db _ db.seq hk1, rfl, rfl, rfl, fun _ => rfl, ?_⟩
          intro y hy _ _
          have hnone : db.rows.find? (fun y => y.ID == r.ID) = none := by
            rw [List.find?_eq_none]
            intro z hz hpz
            exact (not_hasKey_iff db r.ID).mp hk1 z hz (by simpa using hpz)
          rw [hnone] at hy
          cases hy
    · have hz : r.ID = 0 := by simpa using h0
      by_cases hk : db.hasKey ((db.seq : Int) + 1) = true
      · simp [DB.Save, if_neg h0, hk] at h
      · have hk1 : db.hasKey ((db.seq : Int) + 1) = false := by simpa using hk
        simp only [DB.Save, if_neg h0, if_neg hk, Except.ok.injEq, Prod.mk.injEq] at h
        obtain ⟨h1, _, h3⟩ := h
        subst h1
        subst h3
        refine ⟨rfl, fun hn => absurd hz hn, fun _ => ⟨rfl, rfl⟩, ?_,
          fun hn => absurd hz hn, ?_⟩
        · intro hc
          simp [hc]
        · exact ⟨_, first_append_new db _ (db.seq + 1) hk1, rfl, rfl, rfl, fun _ => rfl,
            fun _ _ hn => absurd hz hn⟩

/-! ## The data-model invariant is kept by `Save` and `Delete` -/

theorem map_ID_update (l : List PieceCommitmentLogs) (k : Int)
    (f : PieceCommitmentLogs → PieceCommitmentLogs) (hf : ∀ x, (f x).ID = k) :
    (l.map (fun x => if x.ID == k then f x else x)).map (fun x => x.ID)
      = l.map (fun x => x.ID) := by
  induction l with
  | nil => rfl
  | cons a l ih =>
    simp only [List.map_cons, ih, List.cons.injEq, and_true]
    by_cases ha : a.ID = k
    · simp [ha, hf a]
    · simp [ha]

theorem append_new_WF (db : DB) (r : PieceCommitmentLogs) (seq : Nat) (hwf : db.WF)
    (h0 : r.ID ≠ 0) (hk : db.hasKey r.ID = false) : (DB.mk (db.rows ++ [r]) seq).WF := by
  have hnew := (not_hasKey_iff db r.ID).mp hk
  refine ⟨?_, ?_⟩
  · simp only [List.map_append, List.map_cons, List.map_nil]
    rw [List.nodup_append]
    refine ⟨hwf.1, List.nodup_singleton _, ?_⟩
    intro a ha hb
    simp only [List.mem_singleton] at hb
    simp only [List.mem_map] at ha
    obtain ⟨y, hy, hya⟩ := ha
    exact hnew y hy (hya.trans hb)
  · intro x hx
    rcases List.mem_append.mp hx with hx | hx
    · exact hwf.2 x hx
    · simp only [List.mem_singleton] at hx
      rw [hx]
      exact h0

theorem save_preserves_WF (db db1 : DB) (fault : Option StoreError) (now : Int)
    (r res : PieceCommitmentLogs) (n : Int) (hwf : db.WF)
    (h : db.Save fault now r = .ok (res, n, db1)) : db1.WF := by
  cases fault with
  | some e => simp [DB.Save] at h
  | none =>
    by_cases h0 : r.ID ≠ 0
    · by_cases hk : db.hasKey r.ID = true
      · simp only [DB.Save, if_pos h0, if_pos hk, Except.ok.injEq, Prod.mk.injEq] at h
        obtain ⟨_, _, h3⟩ := h
        subst h3
        refine ⟨?_, ?_⟩
        · have hm := map_ID_update db.rows r.ID
            (fun x => PieceCommitmentLogs.mk r.ID r.cols
              (if r.CreatedAt = 0 then x.CreatedAt else r.CreatedAt) now) (fun _ => rfl)
          have hnd := hwf.1
          rw [← hm] at hnd
          exact hnd
        · intro x hx
          simp only [List.mem_map] at hx
          obtain ⟨y, hy, hxy⟩ := hx
          by_cases hyr : y.ID = r.ID
          · simp only [hyr, beq_self_eq_true, if_true] at hxy
            rw [← hxy]
            exact h0
          · have hb : (y.ID == r.ID) = false := by simpa using hyr
            simp only [hb, Bool.false_eq_true, if_false] at hxy
            rw [← hxy]
            exact hwf.2 y hy
      · have hk1 : db.hasKey r.ID = false := by simpa using hk
        simp only [DB.Save, if_pos h0, if_neg hk, Except.ok.injEq, Prod.mk.injEq] at h
        obtain ⟨_, _, h3⟩ := h
        subst h3
        exact append_new_WF db _ db.seq hwf h0 hk1
    · by_cases hk : db.hasKey ((db.seq : Int) + 1) = true
      · simp [DB.Save, if_neg h0, hk] at h
      · have hk1 : db.hasKey ((db.seq : Int) + 1) = false := by simpa using hk
        simp only [DB.Save, if_neg h0, if_neg hk, Except.ok.injEq, Prod.mk.injEq] at h
        obtain ⟨_, _, h3⟩ := h
        subst h3
        refine append_new_WF db _ (db.seq + 1) hwf ?_ hk1
        show (db.seq : Int) + 1 ≠ 0
        omega

theorem delete_preserves_WF (db db1 : DB) (fault : Option StoreError)
    (r : PieceCommitmentLogs) (n : Int) (hwf : db.WF)
    (h : db.Delete fault r = .ok (n, db1)) : db1.WF := by
  cases fault with
  | some e => simp [DB.Delete] at h
  | none =>
    by_cases h0 : r.ID ≠ 0
    · simp only [DB.Delete, if_pos h0, Except.ok.injEq, Prod.mk.injEq] at h
      rw [← h.2]
      refine ⟨?_, fun x hx => hwf.2 x (List.mem_of_mem_filter hx)⟩
      exact List.Nodup.sublist ((List.filter_sublist db.rows).map _) hwf.1
    · simp only [DB.Delete, if_neg h0, Except.ok.injEq, Prod.mk.injEq] at h
      rw [← h.2]
      exact ⟨by simp, fun x hx => by cases hx⟩

/-! ## C5: copy-merge semantics of Update -/

/-- C6: for every id of a stored record, whose fetch is hit by no store error,
`UpdatePieceCommitmentLogs(id, patch)` fails with `ErrUpdateFailed` if and only if
the merge (`Copy`) reports an error or the persist step (`Save` of the merged
record) reports one; it then returns `(nil, -1, ErrUpdateFailed)` and leaves the
table as it was; otherwise it returns the merged record as `Save` left it (with
the key and the fields of the merge when its primary key is not blank, and
`UpdatedAt` at the instant of the save), the rows-affected count of `Save` and a
nil error. -/
theorem update_fails_iff_merge_or_save_errors (db : DB) (saveFault : Option StoreError)
    (now id : Int) (patch : PieceCommitmentLogs) (h : db.hasKey id = true) :
    ∃ r, db.First none id = .ok r ∧
      (((UpdatePieceCommitmentLogs db none saveFault now id patch).1.2.2
          = some .ErrUpdateFailed) ↔
        ((∃ e, Copy r patch = .error e) ∨
          ∃ m e, Copy r patch = .ok m ∧ db.Save saveFault now m = .error e)) ∧
      ((UpdatePieceCommitmentLogs db none saveFault now id patch).1.2.2
          = some .ErrUpdateFailed →
        UpdatePieceCommitmentLogs db none saveFault now id patch
          = ((none, -1, some .ErrUpdateFailed), db)) ∧
      ((UpdatePieceCommitmentLogs db none saveFault now id patch).1.2.2
          ≠ some .ErrUpdateFailed →
        ∃ m res n db1, Copy r patch = .ok m ∧
          db.Save saveFault now m = .ok (res, n, db1) ∧
          UpdatePieceCommitmentLogs db none saveFault now id patch
            = ((some res, n, none), db1) ∧
          (m.ID ≠ 0 → res.ID = m.ID ∧ res.cols = m.cols ∧ res.UpdatedAt = now)) := by
  obtain ⟨r, hr⟩ := first_ok_of_hasKey db id h
  refine ⟨r, hr, ?_⟩
  cases hc : Copy r patch with
  | error e =>
    refine ⟨?_, ?_, ?_⟩
    · simp [UpdatePieceCommitmentLogs, hr, hc]
    · intro _
      simp [UpdatePieceCommitmentLogs, hr, hc]
    · intro hne
      simp [UpdatePieceCommitmentLogs, hr, hc] at hne
  | ok m =>
    cases hs : db.Save saveFault now m with
    | error e =>
      refine ⟨?_, ?_, ?_⟩
      · simp [UpdatePieceCommitmentLogs, hr, hc, hs]
      · intro _
        simp [UpdatePieceCommitmentLogs, hr, hc, hs]
      · intro hne
        simp [UpdatePieceCommitmentLogs, hr, hc, hs] at hne
    | ok out =>
      obtain ⟨res, n, db1⟩ := out
      refine ⟨?_, ?_, ?_⟩
      · simp [UpdatePieceCommitmentLogs, hr, hc, hs]
      · intro hf
        simp [UpdatePieceCommitmentLogs, hr, hc, hs] at hf
      · intro _
        have hspec := save_spec _ _ _ _ _ _ _ hs
        exact ⟨m, res, n, db1, rfl, hs, by simp [UpdatePieceCommitmentLogs, hr, hc, hs],
          fun hm => ⟨(hspec.2.1 hm).1, hspec.1, (hspec.2.1 hm).2⟩⟩

/-- Witness of `update_fails_iff_merge_or_save_errors`: the persist step is hit
by a store error. -/
theorem update_fails_iff_merge_or_save_errors_witness :
    (⟨[⟨1, [.nullInteger none], 0, 0⟩], 1⟩ : DB).hasKey 1 = true ∧
    UpdatePieceCommitmentLogs ⟨[⟨1, [.nullInteger none], 0, 0⟩], 1⟩ none
      (some (.failure "connection reset")) 100 1 ⟨0, [.nullInteger (some 5)], 0, 0⟩
        = ((none, -1, some .ErrUpdateFailed), ⟨[⟨1, [.nullInteger none], 0, 0⟩], 1⟩) := by
  obtain ⟨r, _, _, h2, _⟩ := update_fails_iff_merge_or_save_errors
    ⟨[⟨1, [.nullInteger none], 0, 0⟩], 1⟩ (some (.failure "connection reset")) 100 1
    ⟨0, [.nullInteger (some 5)], 0, 0⟩ (by decide)
  exact ⟨by decide, h2 (by decide)⟩

/-! ## C7: Delete fetches first -/

/-- C7: `DeletePieceCommitmentLogs(id)` fetches the record by id first and issues
the delete only if the fetch succeeded: when the fetch fails the result is
`(-1, ErrNotFound)` whatever the delete would have done, and the table is
untouched. When the fetch succeeds, it fails with `ErrDeleteFailed` if and only
if the delete itself reports an error, and then returns `-1` and leaves the
table as it was; otherwise it returns the rows-affected count of the delete with
a nil error, and no record with that id is stored any more. -/
theorem delete_fetches_then_deletes (db : DB)
    (firstFault deleteFault : Option StoreError) (id : Int) :
    ((∃ e, db.First firstFault id = .error e) →
      ∀ anyFault, DeletePieceCommitmentLogs db firstFault anyFault id
        = ((-1, some .ErrNotFound), db)) ∧
    (∀ r, db.First firstFault id = .ok r →
      (((DeletePieceCommitmentLogs db firstFault deleteFault id).1.2
          = some .ErrDeleteFailed) ↔ ∃ e, db.Delete deleteFault r = .error e) ∧
      ((∃ e, db.Delete deleteFault r = .error e) →
        DeletePieceCommitmentLogs db firstFault deleteFault id
          = ((-1, some .ErrDeleteFailed), db)) ∧
      (∀ n db1, db.Delete deleteFault r = .ok (n, db1) →
        DeletePieceCommitmentLogs db firstFault deleteFault id = ((n, none), db1) ∧
        db1.hasKey id = false)) := by
  refine ⟨?_, ?_⟩
  · rintro ⟨e, he⟩ anyFault
    simp [DeletePieceCommitmentLogs, he]
  · intro r hr
    have hid : r.ID = id := (first_ok_inv db firstFault id r hr).2.2.1
    cases hd : db.Delete deleteFault r with
    | error e =>
      refine ⟨?_, ?_, ?_⟩
      · simp [DeletePieceCommitmentLogs, hr, hd]
      · intro _
        simp [DeletePieceCommitmentLogs, hr, hd]
      · intro n db1 h
        cases h
    | ok out =>
      obtain ⟨n, db1⟩ := out
      refine ⟨?_, ?_, ?_⟩
      · simp [DeletePieceCommitmentLogs, hr, hd]
      · rintro ⟨e, he⟩
        cases he
      · intro n1 db2 h
        simp only [Except.ok.injEq, Prod.mk.injEq] at h
        obtain ⟨h1, h2⟩ := h
        subst h1
        subst h2
        refine ⟨by simp [DeletePieceCommitmentLogs, hr, hd], ?_⟩
        rw [← hid]
        exact hasKey_false_after_delete db db1 deleteFault r n hd

/-- Witness of `delete_fetches_then_deletes`: deleting the stored id 2 succeeds
with one row affected and leaves no record with id 2. -/
theorem delete_fetches_then_deletes_witness :
    DeletePieceCommitmentLogs ⟨[⟨1, [], 0, 0⟩, ⟨2, [], 0, 0⟩], 2⟩ none none 2
      = ((1, none), ⟨[⟨1, [], 0, 0⟩], 2⟩) ∧
    (⟨[⟨1, [], 0, 0⟩], 2⟩ : DB).hasKey 2 = false :=
  (delete_fetches_then_deletes ⟨[⟨1, [], 0, 0⟩, ⟨2, [], 0, 0⟩], 2⟩ none none 2).2
    ⟨2, [], 0, 0⟩ rfl |>.2.2 1 ⟨[⟨1, [], 0, 0⟩], 2⟩ rfl

/-! ## C8: Delete of an id already deleted -/

/-- C8: for every table and id, if `DeletePieceCommitmentLogs(id)` succeeds then
a second `DeletePieceCommitmentLogs(id)` on the resulting table returns
`(-1, ErrNotFound)`, not `ErrDeleteFailed`, whichever store errors hit the second
call. -/
theorem delete_twice_notFound (db db1 : DB)
    (firstFault deleteFault firstFault1 deleteFault1 : Option StoreError)
    (id n : Int)
    (h : DeletePieceCommitmentLogs db firstFault deleteFault id = ((n, none), db1)) :
    DeletePieceCommitmentLogs db1 firstFault1 deleteFault1 id
      = ((-1, some .ErrNotFound), db1) := by
  cases hr : db.First firstFault id with
  | error e => simp [DeletePieceCommitmentLogs, hr] at h
  | ok r =>
    have hid : r.ID = id := (first_ok_inv db firstFault id r hr).2.2.1
    cases hd : db.Delete deleteFault r with
    | error e => simp [DeletePieceCommitmentLogs, hr, hd] at h
    | ok out =>
      obtain ⟨n1, db2⟩ := out
      simp only [DeletePieceCommitmentLogs, hr, hd, Prod.mk.injEq, and_true] at h
      obtain ⟨_, h2⟩ := h
      subst h2
      have hk : db2.hasKey id = false := by
        rw [← hid]
        exact hasKey_false_after_delete db db2 deleteFault r n1 hd
      obtain ⟨e, he⟩ := first_error_of_not_hasKey db2 firstFault1 id hk
      simp [DeletePieceCommitmentLogs, he]

/-- Witness of `delete_twice_notFound`: id 2 is deleted twice. -/
theorem delete_twice_notFound_witness :
    DeletePieceCommitmentLogs ⟨[⟨1, [], 0, 0⟩, ⟨2, [], 0, 0⟩], 2⟩ none none 2
      = ((1, none), ⟨[⟨1, [], 0, 0⟩], 2⟩) ∧
    DeletePieceCommitmentLogs ⟨[⟨1, [], 0, 0⟩], 2⟩ none none 2
      = ((-1, some .ErrNotFound), ⟨[⟨1, [], 0, 0⟩], 2⟩) :=
  ⟨rfl, delete_twice_notFound ⟨[⟨1, [], 0, 0⟩, ⟨2, [], 0, 0⟩], 2⟩ ⟨[⟨1, [], 0, 0⟩], 2⟩
    none none none none 2 1 rfl⟩

/-! ## C9: Create then Get -/

theorem save_new_spec (db db1 : DB) (fault : Option StoreError) (now : Int)
    (r res : PieceCommitmentLogs) (n : Int)
    (h : db.Save fault now r = .ok (res, n, db1))
    (hnew : r.ID ≠ 0 → db.hasKey r.ID = false) :
    res.CreatedAt = (if r.CreatedAt = 0 then now else r.CreatedAt) ∧
    db1.First none res.ID = .ok res := by
  cases fault with
  | some e => simp [DB.Save] at h
  | none =>
    by_cases h0 : r.ID ≠ 0
    · have hk1 : db.hasKey r.ID = false := hnew h0
      have hk : ¬ db.hasKey r.ID = true := by simp [hk1]
      simp only [DB.Save, if_pos h0, if_neg hk, Except.ok.injEq, Prod.mk.injEq] at h
      obtain ⟨h1, _, h3⟩ := h
      subst h1
      subst h3
      exact ⟨rfl, first_append_new db _ db.seq hk1⟩
    · by_cases hk : db.hasKey ((db.seq : Int) + 1) = true
      · simp [DB.Save, if_neg h0, hk] at h
      · have hk1 : db.hasKey ((db.seq : Int) + 1) = false := by simpa using hk
        simp only [DB.Save, if_neg h0, if_neg hk, Except.ok.injEq, Prod.mk.injEq] at h
        obtain ⟨h1, _, h3⟩ := h
        subst h1
        subst h3
        exact ⟨rfl, first_append_new db _ (db.seq + 1) hk1⟩

/-- C9 as stated fails for a field the caller sets: a record with key 2,
`CreatedAt = 4` and `UpdatedAt = 5` is added at the instant 9 to a table that
does not hold key 2. The call succeeds and returns the record with
`UpdatedAt = 9`, and `GetPieceCommitmentLogs(2)` on the resulting table returns
`UpdatedAt = 9`, not the 5 of the record, which was no default. -/
theorem add_overwrites_UpdatedAt_counterexample :
    (⟨[⟨1, [.nullInteger none], 3, 3⟩], 1⟩ : DB).hasKey 2 = false ∧
    AddPieceCommitmentLogs ⟨[⟨1, [.nullInteger none], 3, 3⟩], 1⟩ none 9
      ⟨2, [.nullInteger (some 7)], 4, 5⟩
        = ((some ⟨2, [.nullInteger (some 7)], 4, 9⟩, 1, none),
            ⟨[⟨1, [.nullInteger none], 3, 3⟩, ⟨2, [.nullInteger (some 7)], 4, 9⟩], 1⟩) ∧
    GetPieceCommitmentLogs [.nullInteger]
      ⟨[⟨1, [.nullInteger none], 3, 3⟩, ⟨2, [.nullInteger (some 7)], 4, 9⟩], 1⟩ none 2
        = (⟨2, [.nullInteger (some 7)], 4, 9⟩, none) ∧
    (⟨2, [.nullInteger (some 7)], 4, 9⟩ : PieceCommitmentLogs).UpdatedAt
      ≠ (⟨2, [.nullInteger (some 7)], 4, 5⟩ : PieceCommitmentLogs).UpdatedAt := by
  refine ⟨by decide, by decide, by decide, by decide⟩

/-- C9 (amended): for every table and every record `r` whose primary key is
blank or not yet stored, if `AddPieceCommitmentLogs(r)` at the instant `now`
succeeds then it returns `r` as `Save` left it, together with the rows-affected
count of `Save`, and `GetPieceCommitmentLogs` of the returned record's primary
key on the resulting table succeeds and returns exactly the returned record. That
record equals `r` in every field except: the primary key when `r` has none (the
store assigns one), `CreatedAt` when `r` leaves it blank (`now`), and
`UpdatedAt`, which is `now` when `r` has a primary key, whatever `r` holds, and
is filled with `now` only if blank when `r` has none. -/
theorem add_then_get (schema : List Kind) (db db1 : DB) (fault : Option StoreError)
    (now : Int) (r res : PieceCommitmentLogs) (n : Int)
    (hnew : r.ID ≠ 0 → db.hasKey r.ID = false)
    (h : AddPieceCommitmentLogs db fault now r = ((some res, n, none), db1)) :
    db.Save fault now r = .ok (res, n, db1) ∧
    res.cols = r.cols ∧
    (r.ID ≠ 0 → res.ID = r.ID ∧ res.UpdatedAt = now) ∧
    (r.ID = 0 → res.UpdatedAt = (if r.UpdatedAt = 0 then now else r.UpdatedAt)) ∧
    res.CreatedAt = (if r.CreatedAt = 0 then now else r.CreatedAt) ∧
    GetPieceCommitmentLogs schema db1 none res.ID = (res, none) := by
  cases hs : db.Save fault now r with
  | error e => simp [AddPieceCommitmentLogs, hs] at h
  | ok out =>
    obtain ⟨res1, n1, db2⟩ := out
    simp only [AddPieceCommitmentLogs, hs, Prod.mk.injEq, Option.some.injEq, and_true] at h
    obtain ⟨⟨h1, h2⟩, h3⟩ := h
    subst h1
    subst h2
    subst h3
    obtain ⟨hcols, hid, hblank, _⟩ := save_spec _ _ _ _ _ _ _ hs
    obtain ⟨hcr, hget⟩ := save_new_spec _ _ _ _ _ _ _ hs hnew
    exact ⟨rfl, hcols, hid, fun hz => (hblank hz).2, hcr,
      by simp [GetPieceCommitmentLogs, hget]⟩

/-- Witness of `add_then_get`: a record with key 2 and blank timestamps is added
at the instant 9 to a table holding key 1, and read back. -/
theorem add_then_get_witness :
    AddPieceCommitmentLogs ⟨[⟨1, [.nullInteger none], 3, 3⟩], 1⟩ none 9
      ⟨2, [.nullInteger (some 7)], 0, 0⟩
        = ((some ⟨2, [.nullInteger (some 7)], 9, 9⟩, 1, none),
            ⟨[⟨1, [.nullInteger none], 3, 3⟩, ⟨2, [.nullInteger (some 7)], 9, 9⟩], 1⟩) ∧
    GetPieceCommitmentLogs [.nullInteger]
      ⟨[⟨1, [.nullInteger none], 3, 3⟩, ⟨2, [.nullInteger (some 7)], 9, 9⟩], 1⟩ none 2
        = (⟨2, [.nullInteger (some 7)], 9, 9⟩, none) :=
  ⟨rfl, (add_then_get [.nullInteger] ⟨[⟨1, [.nullInteger none], 3, 3⟩], 1⟩
    ⟨[⟨1, [.nullInteger none], 3, 3⟩, ⟨2, [.nullInteger (some 7)], 9, 9⟩], 1⟩ none 9
    ⟨2, [.nullInteger (some 7)], 0, 0⟩ ⟨2, [.nullInteger (some 7)], 9, 9⟩ 1
    (fun _ => by decide) rfl).2.2.2.2.2⟩

/-! ## C10: failure of Create -/

/-- C10, the code at the failing input: the table holds a record of key 1 and
`AddPieceCommitmentLogs` is called, at the instant 7 and with no store error,
with another record of key 1. The call is not rejected: it returns the record,
one row affected and a nil error (not `ErrInsertFailed`), and the stored record
of key 1 is not left unchanged: its fields are those of the new record. -/
theorem add_existing_key_counterexample :
    (⟨[⟨1, [.nullInteger (some 5)], 3, 3⟩], 1⟩ : DB).hasKey 1 = true ∧
    AddPieceCommitmentLogs ⟨[⟨1, [.nullInteger (some 5)], 3, 3⟩], 1⟩ none 7
      ⟨1, [.nullInteger (some 9)], 0, 0⟩
        = ((some ⟨1, [.nullInteger (some 9)], 0, 7⟩, 1, none),
            ⟨[⟨1, [.nullInteger (some 9)], 3, 7⟩], 1⟩) ∧
    (AddPieceCommitmentLogs ⟨[⟨1, [.nullInteger (some 5)], 3, 3⟩], 1⟩ none 7
      ⟨1, [.nullInteger (some 9)], 0, 0⟩).1.2.2 ≠ some .ErrInsertFailed ∧
    (AddPieceCommitmentLogs ⟨[⟨1, [.nullInteger (some 5)], 3, 3⟩], 1⟩ none 7
      ⟨1, [.nullInteger (some 9)], 0, 0⟩).2
        ≠ ⟨[⟨1, [.nullInteger (some 5)], 3, 3⟩], 1⟩ := by
  refine ⟨by decide, by decide, by decide, by decide⟩

/-- The error mapping of `AddPieceCommitmentLogs`: the call returns a non-nil
error if and only if the store's `Save` reports an error (a store error, or a
store-assigned key that is already taken); it then returns
`(nil, -1, ErrInsertFailed)` and the table is as it was. -/
theorem add_fails_iff_save_errors (db : DB) (fault : Option StoreError) (now : Int)
    (r : PieceCommitmentLogs) :
    ((AddPieceCommitmentLogs db fault now r).1.2.2 ≠ none ↔
      ∃ e, db.Save fault now r = .error e) ∧
    ((∃ e, db.Save fault now r = .error e) →
      AddPieceCommitmentLogs db fault now r = ((none, -1, some .ErrInsertFailed), db)) ∧
    (∀ e, AddPieceCommitmentLogs db (some e) now r
      = ((none, -1, some .ErrInsertFailed), db)) ∧
    (r.ID = 0 → db.hasKey ((db.seq : Int) + 1) = true →
      AddPieceCommitmentLogs db none now r = ((none, -1, some .ErrInsertFailed), db)) := by
  refine ⟨?_, ?_, ?_, ?_⟩
  · cases hs : db.Save fault now r with
    | error e => simp [AddPieceCommitmentLogs, hs]
    | ok out => simp [AddPieceCommitmentLogs, hs]
  · rintro ⟨e, he⟩
    simp [AddPieceCommitmentLogs, he]
  · intro e
    simp [AddPieceCommitmentLogs, DB.Save]
  · intro h0 hk
    simp [AddPieceCommitmentLogs, DB.Save, h0, hk]

/-! ## C11: the size of a page -/

theorem page_length {α : Type} (l : List α) (o n : Int) (ho : 0 ≤ o) (hn : 0 ≤ n) :
    ((applyLimit (some n) (applyOffset (some o) l)).length : Int)
      = min n (max 0 ((l.length : Int) - o)) := by
  simp only [applyLimit, applyOffset, ho, hn, if_true, List.length_take, List.length_drop]
  omega

theorem orderedRows_length
    (ord : String → List PieceCommitmentLogs → List PieceCommitmentLogs)
    (hord : ∀ e l, (ord e l).Perm l) (db : DB) (order : String) :
    (orderedRows ord db order).length = db.rows.length := by
  unfold orderedRows applyOrder
  split
  · rfl
  · exact (hord _ _).length_eq

/-- C11 (amended): over a table of exactly 25 records (the order clause being a
permutation of the rows, no store error), `List(page=1, pageSize=10)` returns 10
records with `totalCount = 25` and `List(page=3, pageSize=10)` returns 5 records
with `totalCount = 25`; in general, for `pageSize > 0` and `page >= 1` such that
`(page-1)*pageSize` does not overflow `int64`, the returned page has
`min(pageSize, max(0, total - (page-1)*pageSize))` records. -/
theorem getAll_page_length
    (ord : String → List PieceCommitmentLogs → List PieceCommitmentLogs)
    (hord : ∀ e l, (ord e l).Perm l) (db : DB) (order : String) :
    (db.rows.length = 25 →
      ∃ r1 r3,
        GetAllPieceCommitmentLogs ord db none none 1 10 order = (some r1, 25, none) ∧
        r1.length = 10 ∧
        GetAllPieceCommitmentLogs ord db none none 3 10 order = (some r3, 25, none) ∧
        r3.length = 5) ∧
    (∀ (countFault : Option StoreError) (page pagesize : Int),
      0 < pagesize → 1 ≤ page → (page - 1) * pagesize < 2 ^ 63 →
      ∃ results,
        (GetAllPieceCommitmentLogs ord db countFault none page pagesize order).1
          = some results ∧
        (results.length : Int)
          = min pagesize (max 0 ((db.rows.length : Int) - (page - 1) * pagesize))) := by
  have hgen : ∀ (countFault : Option StoreError) (page pagesize : Int),
      0 < pagesize → 1 ≤ page → (page - 1) * pagesize < 2 ^ 63 →
      ∃ results,
        (GetAllPieceCommitmentLogs ord db countFault none page pagesize order).1
          = some results ∧
        (results.length : Int)
          = min pagesize (max 0 ((db.rows.length : Int) - (page - 1) * pagesize)) := by
    intro countFault page pagesize hps hp hlt
    have hpos : page > 0 := by omega
    have hnn : 0 ≤ (page - 1) * pagesize := mul_nonneg (by omega) (le_of_lt hps)
    have hw : wrapInt64 ((page - 1) * pagesize) = (page - 1) * pagesize :=
      wrapInt64_of_isInt64 _ ⟨by omega, hlt⟩
    refine ⟨_, by rw [getAll_ok], ?_⟩
    simp only [hpos, if_true, hw]
    rw [page_length _ _ _ hnn (le_of_lt hps), orderedRows_length ord hord]
  refine ⟨?_, hgen⟩
  intro h25
  obtain ⟨r1, h1, hl1⟩ := hgen none 1 10 (by decide) (by decide) (by decide)
  obtain ⟨r3, h3, hl3⟩ := hgen none 3 10 (by decide) (by decide) (by decide)
  rw [h25] at hl1 hl3
  rw [getAll_ok] at h1 h3
  simp only [Option.some.injEq] at h1 h3
  refine ⟨r1, r3, ?_, ?_, ?_, ?_⟩
  · rw [getAll_ok, h1]
    simp [DB.Count, h25]
  · have : (r1.length : Int) = 10 := by rw [hl1]; decide
    exact_mod_cast this
  · rw [getAll_ok, h3]
    simp [DB.Count, h25]
  · have : (r3.length : Int) = 5 := by rw [hl3]; decide
    exact_mod_cast this

/-- Witness of `getAll_page_length`: the 25 records with keys 1 to 25 in the
store's default order. -/
theorem getAll_page_length_witness :
    ∃ r1 r3,
      GetAllPieceCommitmentLogs (fun _ l => l)
        ⟨(List.range 25).map (fun (i : Nat) => ⟨(i : Int) + 1, [], 0, 0⟩), 25⟩ none none 1 10 ""
          = (some r1, 25, none) ∧
      r1.length = 10 ∧
      GetAllPieceCommitmentLogs (fun _ l => l)
        ⟨(List.range 25).map (fun (i : Nat) => ⟨(i : Int) + 1, [], 0, 0⟩), 25⟩ none none 3 10 ""
          = (some r3, 25, none) ∧
      r3.length = 5 :=
  (getAll_page_length (fun _ l => l) (fun _ l => List.Perm.refl l)
    ⟨(List.range 25).map (fun (i : Nat) => ⟨(i : Int) + 1, [], 0, 0⟩), 25⟩ "").1 (by decide)

/-- C11 as stated fails on `int64` overflow: for `pageSize = 2 > 0` and
`page = 2^62 + 1 >= 1` over a table of 3 records the offset wraps to `-2^63`,
the store leaves it out, and the page has 2 records, while
`min(pageSize, max(0, total - (page-1)*pageSize))` is 0. -/
theorem getAll_page_length_overflow_counterexample :
    isInt64 (2 ^ 62 + 1) ∧ isInt64 2 ∧ (0 : Int) < 2 ∧ (1 : Int) ≤ 2 ^ 62 + 1 ∧
    (GetAllPieceCommitmentLogs (fun _ l => l)
      ⟨[⟨1, [], 0, 0⟩, ⟨2, [], 0, 0⟩, ⟨3, [], 0, 0⟩], 3⟩ none none (2 ^ 62 + 1) 2 "")
        = (some [⟨1, [], 0, 0⟩, ⟨2, [], 0, 0⟩], 3, none) ∧
    min (2 : Int) (max 0 ((3 : Int) - (2 ^ 62 + 1 - 1) * 2)) = 0 := by
  refine ⟨by decide, by decide, by decide, by decide, by decide, by decide⟩

/-! ## C12: the list query and the Result Cache -/

theorem getAllCounted_eq
    (ord : String → List PieceCommitmentLogs → List PieceCommitmentLogs)
    (g : Globals) (countFault findFault : Option StoreError)
    (page pagesize : Int) (order : String) :
    GetAllPieceCommitmentLogsCounted ord g countFault findFault page pagesize order
      = (GetAllPieceCommitmentLogs ord g.store countFault findFault page pagesize order,
          { g with calls := g.calls + 2 }) := by
  cases h : g.store.Find ord findFault (listQuery page pagesize order) <;>
    simp [GetAllPieceCommitmentLogsCounted, GetAllPieceCommitmentLogs, h]

/-- C12 as stated fails: the second of two consecutive identical list calls
goes to the store again. Over a table of three records with the store-call
counter at 0 and an empty cache, the first call of `List(page=1, pageSize=2)`
leaves the counter at 2 and the cache empty, and the second, identical call
returns the same result and leaves the counter at 4. -/
theorem getAll_second_call_counterexample :
    GetAllPieceCommitmentLogsCounted (fun _ l => l)
      ⟨⟨[⟨1, [], 0, 0⟩, ⟨2, [], 0, 0⟩, ⟨3, [], 0, 0⟩], 3⟩, 0, []⟩ none none 1 2 ""
        = ((some [⟨1, [], 0, 0⟩, ⟨2, [], 0, 0⟩], 3, none),
            ⟨⟨[⟨1, [], 0, 0⟩, ⟨2, [], 0, 0⟩, ⟨3, [], 0, 0⟩], 3⟩, 2, []⟩) ∧
    GetAllPieceCommitmentLogsCounted (fun _ l => l)
      ⟨⟨[⟨1, [], 0, 0⟩, ⟨2, [], 0, 0⟩, ⟨3, [], 0, 0⟩], 3⟩, 2, []⟩ none none 1 2 ""
        = ((some [⟨1, [], 0, 0⟩, ⟨2, [], 0, 0⟩], 3, none),
            ⟨⟨[⟨1, [], 0, 0⟩, ⟨2, [], 0, 0⟩, ⟨3, [], 0, 0⟩], 3⟩, 4, []⟩) := by
  refine ⟨by decide, by decide⟩

/-- C12 (amended): two consecutive list calls with identical
`(page, pageSize, order)`, met by the same store outcomes, return identical
results, but `GetAllPieceCommitmentLogs` is not a read-through of the Result
Cache: each call, the second included, sends its two statements (`Count` and
`Find`) to the store, so the store-call counter grows by 2 per call; the call
neither reads `dao.Cacher` (its result is the same whatever the cache holds) nor
writes it, and it leaves the table as it is. -/
theorem getAll_is_not_read_through
    (ord : String → List PieceCommitmentLogs → List PieceCommitmentLogs)
    (g : Globals) (countFault findFault : Option StoreError)
    (page pagesize : Int) (order : String) :
    (GetAllPieceCommitmentLogsCounted ord
        (GetAllPieceCommitmentLogsCounted ord g countFault findFault page pagesize order).2
        countFault findFault page pagesize order).1
      = (GetAllPieceCommitmentLogsCounted ord g countFault findFault page pagesize order).1 ∧
    (GetAllPieceCommitmentLogsCounted ord g countFault findFault page pagesize order).2.calls
      = g.calls + 2 ∧
    (GetAllPieceCommitmentLogsCounted ord
        (GetAllPieceCommitmentLogsCounted ord g countFault findFault page pagesize order).2
        countFault findFault page pagesize order).2.calls
      = g.calls + 4 ∧
    (GetAllPieceCommitmentLogsCounted ord g countFault findFault page pagesize order).2.Cacher
      = g.Cacher ∧
    (GetAllPieceCommitmentLogsCounted ord g countFault findFault page pagesize order).2.store
      = g.store ∧
    (∀ entries : List CacheEntry,
      (GetAllPieceCommitmentLogsCounted ord { g with Cacher := entries }
          countFault findFault page pagesize order).1
        = (GetAllPieceCommitmentLogsCounted ord g countFault findFault page pagesize order).1) ∧
    (GetAllPieceCommitmentLogsCounted ord g countFault findFault page pagesize order).1
      = GetAllPieceCommitmentLogs ord g.store countFault findFault page pagesize order := by
  rw [getAllCounted_eq ord g countFault findFault page pagesize order]
  rw [getAllCounted_eq ord { g with calls := g.calls + 2 } countFault findFault page
    pagesize order]
  refine ⟨rfl, rfl, rfl, rfl, rfl, fun entries => ?_, rfl⟩
  rw [getAllCounted_eq ord { g with Cacher := entries } countFault findFault page
    pagesize order]

/-! ## C15: Update and Delete on a missing id leave the table alone -/

/-- C15: for every table, every id that is not stored and every patch,
`UpdatePieceCommitmentLogs` and `DeletePieceCommitmentLogs` return `ErrNotFound`
(with `nil` and `-1`) and the table after the call is the table before it; no
`Save` or `Delete` is issued: the result is the same whatever a `Save` or
`Delete` would have met, even a store error. -/
theorem missing_id_leaves_table_unchanged (db : DB)
    (firstFault saveFault firstFault1 deleteFault : Option StoreError)
    (now id : Int) (patch : PieceCommitmentLogs) (h : db.hasKey id = false) :
    UpdatePieceCommitmentLogs db firstFault saveFault now id patch
      = ((none, -1, some .ErrNotFound), db) ∧
    DeletePieceCommitmentLogs db firstFault1 deleteFault id
      = ((-1, some .ErrNotFound), db) := by
  obtain ⟨e1, h1⟩ := first_error_of_not_hasKey db firstFault id h
  obtain ⟨e2, h2⟩ := first_error_of_not_hasKey db firstFault1 id h
  constructor
  · simp only [UpdatePieceCommitmentLogs, h1]
  · simp only [DeletePieceCommitmentLogs, h2]

/-- Witness of `missing_id_leaves_table_unchanged`: id 7 in a table holding the
keys 1 and 2, with a store error waiting for any `Save` or `Delete`. -/
theorem missing_id_leaves_table_unchanged_witness :
    UpdatePieceCommitmentLogs
      ⟨[⟨1, [.nullInteger none], 0, 0⟩, ⟨2, [.nullInteger none], 0, 0⟩], 2⟩
      none (some (.failure "connection refused")) 100 7 ⟨0, [.nullInteger (some 5)], 0, 0⟩
        = ((none, -1, some .ErrNotFound),
            ⟨[⟨1, [.nullInteger none], 0, 0⟩, ⟨2, [.nullInteger none], 0, 0⟩], 2⟩) ∧
    DeletePieceCommitmentLogs
      ⟨[⟨1, [.nullInteger none], 0, 0⟩, ⟨2, [.nullInteger none], 0, 0⟩], 2⟩
      none (some (.failure "connection refused")) 7
        = ((-1, some .ErrNotFound),
            ⟨[⟨1, [.nullInteger none], 0, 0⟩, ⟨2, [.nullInteger none], 0, 0⟩], 2⟩) :=
  missing_id_leaves_table_unchanged
    ⟨[⟨1, [.nullInteger none], 0, 0⟩, ⟨2, [.nullInteger none], 0, 0⟩], 2⟩
    none (some (.failure "connection refused")) none (some (.failure "connection refused"))
    100 7 ⟨0, [.nullInteger (some 5)], 0, 0⟩ (by decide)

/-! ## C17: the failure return convention -/

/-- C17: whenever `GetAllPieceCommitmentLogs`, `AddPieceCommitmentLogs`,
`UpdatePieceCommitmentLogs` or `DeletePieceCommitmentLogs` returns a non-nil
error, its numeric result is `-1`, its slice or record result is `nil`, and the
error is a sentinel of the package, never the error of the store: `ErrNotFound`
for the list, `ErrInsertFailed` for Add, `ErrNotFound` or `ErrUpdateFailed` for
Update, `ErrNotFound` or `ErrDeleteFailed` for Delete. `GetPieceCommitmentLogs`
is the exception: on failure it returns the zero-valued record it allocated,
which is not `nil`, alongside `ErrNotFound`. -/
theorem failure_return_convention
    (ord : String → List PieceCommitmentLogs → List PieceCommitmentLogs)
    (schema : List Kind) (db : DB) (fault fault1 : Option StoreError)
    (page pagesize : Int) (order : String) (now id : Int)
    (record : PieceCommitmentLogs) :
    ((GetAllPieceCommitmentLogs ord db fault fault1 page pagesize order).2.2 ≠ none →
      GetAllPieceCommitmentLogs ord db fault fault1 page pagesize order
        = (none, -1, some .ErrNotFound)) ∧
    ((AddPieceCommitmentLogs db fault now record).1.2.2 ≠ none →
      (AddPieceCommitmentLogs db fault now record).1 = (none, -1, some .ErrInsertFailed)) ∧
    ((UpdatePieceCommitmentLogs db fault fault1 now id record).1.2.2 ≠ none →
      (UpdatePieceCommitmentLogs db fault fault1 now id record).1
          = (none, -1, some .ErrNotFound) ∨
        (UpdatePieceCommitmentLogs db fault fault1 now id record).1
          = (none, -1, some .ErrUpdateFailed)) ∧
    ((DeletePieceCommitmentLogs db fault fault1 id).1.2 ≠ none →
      (DeletePieceCommitmentLogs db fault fault1 id).1 = (-1, some .ErrNotFound) ∨
        (DeletePieceCommitmentLogs db fault fault1 id).1 = (-1, some .ErrDeleteFailed)) ∧
    ((GetPieceCommitmentLogs schema db fault id).2 ≠ none →
      GetPieceCommitmentLogs schema db fault id
        = (zeroRecord schema, some .ErrNotFound)) := by
  refine ⟨?_, ?_, ?_, ?_, ?_⟩
  · intro h
    cases hf : db.Find ord fault1 (listQuery page pagesize order) with
    | error e => simp only [GetAllPieceCommitmentLogs, hf]
    | ok rs => simp [GetAllPieceCommitmentLogs, hf] at h
  · intro h
    cases hs : db.Save fault now record with
    | error e => simp only [AddPieceCommitmentLogs, hs]
    | ok out => simp [AddPieceCommitmentLogs, hs] at h
  · intro h
    cases hr : db.First fault id with
    | error e =>
      left
      simp only [UpdatePieceCommitmentLogs, hr]
    | ok r =>
      right
      cases hc : Copy r record with
      | error e => simp only [UpdatePieceCommitmentLogs, hr, hc]
      | ok m =>
        cases hs : db.Save fault1 now m with
        | error e => simp only [UpdatePieceCommitmentLogs, hr, hc, hs]
        | ok out => simp [UpdatePieceCommitmentLogs, hr, hc, hs] at h
  · intro h
    cases hr : db.First fault id with
    | error e =>
      left
      simp only [DeletePieceCommitmentLogs, hr]
    | ok r =>
      right
      cases hd : db.Delete fault1 r with
      | error e => simp only [DeletePieceCommitmentLogs, hr, hd]
      | ok out => simp [DeletePieceCommitmentLogs, hr, hd] at h
  · intro h
    cases hr : db.First fault id with
    | error e => simp only [GetPieceCommitmentLogs, hr]
    | ok r => simp [GetPieceCommitmentLogs, hr] at h

/-- Witness of `failure_return_convention`: a store error on `Find`, a
store-assigned key that is already taken on Add, and a store error on the fetch
of Get. -/
theorem failure_return_convention_witness :
    GetAllPieceCommitmentLogs (fun _ l => l) ⟨[⟨1, [.nullInteger none], 0, 0⟩], 1⟩ none
      (some (.failure "connection refused")) 1 10 "" = (none, -1, some .ErrNotFound) ∧
    (AddPieceCommitmentLogs ⟨[⟨1, [.nullInteger none], 0, 0⟩], 0⟩ none 100
      ⟨0, [.nullInteger none], 0, 0⟩).1 = (none, -1, some .ErrInsertFailed) ∧
    GetPieceCommitmentLogs [.nullInteger] ⟨[⟨1, [.nullInteger none], 0, 0⟩], 1⟩
      (some (.failure "connection refused")) 1
        = (⟨0, [.nullInteger none], 0, 0⟩, some .ErrNotFound) := by
  refine ⟨?_, ?_, ?_⟩
  · exact (failure_return_convention (fun _ l => l) [.nullInteger]
      ⟨[⟨1, [.nullInteger none], 0, 0⟩], 1⟩ none (some (.failure "connection refused"))
      1 10 "" 100 1 ⟨0, [.nullInteger none], 0, 0⟩).1 (by decide)
  · exact (failure_return_convention (fun _ l => l) [.nullInteger]
      ⟨[⟨1, [.nullInteger none], 0, 0⟩], 0⟩ none none
      1 10 "" 100 1 ⟨0, [.nullInteger none], 0, 0⟩).2.1 (by decide)
  · exact (failure_return_convention (fun _ l => l) [.nullInteger]
      ⟨[⟨1, [.nullInteger none], 0, 0⟩], 1⟩ (some (.failure "connection refused")) none
      1 10 "" 100 1 ⟨0, [.nullInteger none], 0, 0⟩).2.2.2.2 (by decide)

end Dao

namespace Model

/-! ## C14: the primary key of a descriptor -/

/-- C14: in `content_miner_logsTableInfo` and in `content_wallet_logsTableInfo`
exactly one column has `IsPrimaryKey = true`, the column named "id"; that column
has `Nullable = false`; every other column has `IsPrimaryKey = false`. -/
theorem tableInfo_one_primary_key :
    (content_miner_logsTableInfo.primaryKeys.map (fun c => c.Name) = ["id"] ∧
      (∀ c ∈ content_miner_logsTableInfo.Columns,
        c.IsPrimaryKey = true → c.Name = "id" ∧ c.Nullable = false) ∧
      (∀ c ∈ content_miner_logsTableInfo.Columns,
        c.Name ≠ "id" → c.IsPrimaryKey = false)) ∧
    (content_wallet_logsTableInfo.primaryKeys.map (fun c => c.Name) = ["id"] ∧
      (∀ c ∈ content_wallet_logsTableInfo.Columns,
        c.IsPrimaryKey = true → c.Name = "id" ∧ c.Nullable = false) ∧
      (∀ c ∈ content_wallet_logsTableInfo.Columns,
        c.Name ≠ "id" → c.IsPrimaryKey = false)) := by
  refine ⟨⟨?_, ?_, ?_⟩, ⟨?_, ?_, ?_⟩⟩ <;> decide

/-! ## C18: the column list of a descriptor -/

theorem columns_indexed (cols : List ColumnInfo)
    (h : cols.map (fun c => (c.Index, c.ProtobufPos))
      = (List.range cols.length).map (fun (k : Nat) => ((k : Int), (k : Int) + 1))) :
    ∀ (k : Nat) (c : ColumnInfo), cols[k]? = some c →
      c.Index = k ∧ c.ProtobufPos = (k : Int) + 1 := by
  intro k c hk
  have hlt : k < cols.length := by
    by_contra hge
    rw [List.getElem?_eq_none (by omega)] at hk
    cases hk
  have h1 : (cols.map (fun c => (c.Index, c.ProtobufPos)))[k]?
      = some (c.Index, c.ProtobufPos) := by
    rw [List.getElem?_map, hk]
    rfl
  rw [h, List.getElem?_map, List.getElem?_range hlt] at h1
  simp only [Option.map_some', Option.some.injEq, Prod.mk.injEq] at h1
  exact ⟨h1.1.symm, h1.2.symm⟩

/-- C18: in `content_miner_logsTableInfo` and in `content_wallet_logsTableInfo`
the `k`-th column (counting from 0) has `Index = k` and `ProtobufPos = k + 1`,
the column names are pairwise distinct, and the descriptor's `Name` is the
string `TableName()` of the entity returns ("content_miner_logs" and
"content_wallet_logs"). -/
theorem tableInfo_columns_well_formed :
    ((∀ (k : Nat) (c : ColumnInfo), content_miner_logsTableInfo.Columns[k]? = some c →
        c.Index = k ∧ c.ProtobufPos = (k : Int) + 1) ∧
      (content_miner_logsTableInfo.Columns.map (fun c => c.Name)).Nodup ∧
      content_miner_logsTableInfo.Name = ContentMinerLogs.TableName ∧
      ContentMinerLogs.TableName = "content_miner_logs" ∧
      content_miner_logsTableInfo.Columns.length = 10) ∧
    ((∀ (k : Nat) (c : ColumnInfo), content_wallet_logsTableInfo.Columns[k]? = some c →
        c.Index = k ∧ c.ProtobufPos = (k : Int) + 1) ∧
      (content_wallet_logsTableInfo.Columns.map (fun c => c.Name)).Nodup ∧
      content_wallet_logsTableInfo.Name = ContentWalletLogs.TableName ∧
      ContentWalletLogs.TableName = "content_wallet_logs" ∧
      content_wallet_logsTableInfo.Columns.length = 11) := by
  refine ⟨⟨columns_indexed _ (by decide), by decide, by decide, by decide, by decide⟩,
    ⟨columns_indexed _ (by decide), by decide, by decide, by decide, by decide⟩⟩

end Model

namespace Main

/-! ## Lemmas on the firings of the scheduler -/

theorem fire_both (env : JobName → Outcome) :
    fire [{ name := .refreshStats, everyHours := 4 },
        { name := .refreshAllTables, everyHours := 4 }] env
      = ((refreshStatsJob (env .refreshStats)).1
          ++ (refreshAllTablesJob (env .refreshAllTables)).1, .returned) := by
  simp [fire, runJob, refreshStatsJob, refreshAllTablesJob]

theorem fire_allTables_only (env : JobName → Outcome) :
    fire [{ name := .refreshAllTables, everyHours := 4 }] env
      = ((refreshAllTablesJob (env .refreshAllTables)).1, .returned) := by
  simp [fire, runJob, refreshAllTablesJob]

theorem run_of_fire (s : Scheduler) (hs : s.started = true)
    (f : (JobName → Outcome) → List Event)
    (hf : ∀ env, fire s.jobs env = (f env, .returned))
    (envs : List (JobName → Outcome)) :
    s.run envs = (envs.map f, .returned) := by
  induction envs with
  | nil => rfl
  | cons env envs ih =>
    rw [Scheduler.run, if_pos hs, hf env]
    simp only [ih, List.map_cons]

/-! ## C13: a failing refresh job does not propagate -/

/-- C13: each of the two job bodies of `RefreshDBViews` returns to its caller
for every outcome of the file read and of the store `Exec`, after logging the
read error, if any, and the handle of `Exec` with its error. The all-tables job
is registered whatever the registration of the statistics job did, and the
scheduler is started whatever the two registrations did. With both jobs
registered every firing runs both bodies for every outcome of either; with only
the all-tables job registered every firing runs it. -/
theorem refresh_failures_do_not_propagate (o : Outcome)
    (regErr1 regErr2 : Option String) (envs : List (JobName → Outcome)) :
    ((refreshStatsJob o).2 = .returned ∧ (refreshAllTablesJob o).2 = .returned) ∧
    ((∀ e, o.file.err = some e →
        Event.logReadError "refresh_mv_stats.sql" e ∈ (refreshStatsJob o).1 ∧
        Event.logError e ∈ (refreshAllTablesJob o).1) ∧
      Event.logHandle o.execErr ∈ (refreshStatsJob o).1 ∧
      Event.logHandle o.execErr ∈ (refreshAllTablesJob o).1) ∧
    ({ name := .refreshAllTables, everyHours := 4 } ∈ (RefreshDBViews regErr1 none).1.jobs ∧
      (RefreshDBViews none none).1.jobs
        = [{ name := .refreshStats, everyHours := 4 },
            { name := .refreshAllTables, everyHours := 4 }]) ∧
    (RefreshDBViews regErr1 regErr2).1.started = true ∧
    ((RefreshDBViews none none).1.run envs
      = (envs.map (fun env => (refreshStatsJob (env .refreshStats)).1
          ++ (refreshAllTablesJob (env .refreshAllTables)).1), .returned)) ∧
    (∀ e, (RefreshDBViews (some e) none).1.run envs
      = (envs.map (fun env => (refreshAllTablesJob (env .refreshAllTables)).1),
          .returned)) := by
  refine ⟨⟨rfl, rfl⟩, ⟨?_, ?_, ?_⟩, ⟨?_, rfl⟩, ?_, ?_, ?_⟩
  · intro e he
    simp [refreshStatsJob, refreshAllTablesJob, he]
  · simp [refreshStatsJob]
  · simp [refreshAllTablesJob]
  · cases regErr1 <;> simp [RefreshDBViews, NewScheduler, Scheduler.Do, Scheduler.StartAsync]
  · cases regErr1 <;> cases regErr2 <;>
      simp [RefreshDBViews, NewScheduler, Scheduler.Do, Scheduler.StartAsync]
  · exact run_of_fire _ rfl _ fire_both envs
  · intro e
    exact run_of_fire _ rfl _ fire_allTables_only envs

/-- Witness of `refresh_failures_do_not_propagate`: at the second of two firings
the script of the statistics job cannot be read and its `Exec` fails; the
all-tables job runs in both firings. -/
theorem refresh_failures_do_not_propagate_witness :
    (RefreshDBViews none none).1.run
      [fun _ => ⟨⟨"REFRESH", none⟩, none⟩,
        fun j =>
          match j with
          | .refreshStats => ⟨⟨"", some "no such file"⟩, some "syntax error"⟩
          | .refreshAllTables => ⟨⟨"REFRESH", none⟩, none⟩]
      = ([[.stdout "Refresh Stats Views", .exec "REFRESH", .logHandle none,
            .stdout "Refresh All Table Views", .exec "REFRESH", .logHandle none],
          [.stdout "Refresh Stats Views",
            .logReadError "refresh_mv_stats.sql" "no such file", .exec "",
            .logHandle (some "syntax error"),
            .stdout "Refresh All Table Views", .exec "REFRESH", .logHandle none]],
        .returned) :=
  (refresh_failures_do_not_propagate ⟨⟨"", none⟩, none⟩ none none
    [fun _ => ⟨⟨"REFRESH", none⟩, none⟩,
      fun j =>
        match j with
        | .refreshStats => ⟨⟨"", some "no such file"⟩, some "syntax error"⟩
        | .refreshAllTables => ⟨⟨"REFRESH", none⟩, none⟩]).2.2.2.2.1

/-! ## C16: the script is executed even when it could not be read -/

/-- C16: in each refresh job of `RefreshDBViews` the store `Exec` is issued on
every run, whether or not reading the script file succeeded: the body logs the
read error, if any, and then executes the text of the bytes `os.ReadFile`
returned; when the read fails with no bytes the job logs the read error and
executes the empty text instead of skipping the execution. -/
theorem refresh_job_always_executes (o : Outcome) :
    (Event.exec o.file.data ∈ (refreshStatsJob o).1 ∧
      Event.exec o.file.data ∈ (refreshAllTablesJob o).1) ∧
    ((refreshStatsJob o).1.filter (fun ev => ev matches .exec _) = [.exec o.file.data] ∧
      (refreshAllTablesJob o).1.filter (fun ev => ev matches .exec _)
        = [.exec o.file.data]) ∧
    (∀ e : String,
      (refreshStatsJob ⟨⟨"", some e⟩, o.execErr⟩).1
        = [.stdout "Refresh Stats Views", .logReadError "refresh_mv_stats.sql" e,
            .exec "", .logHandle o.execErr] ∧
      (refreshAllTablesJob ⟨⟨"", some e⟩, o.execErr⟩).1
        = [.stdout "Refresh All Table Views", .logError e, .exec "",
            .logHandle o.execErr]) := by
  refine ⟨⟨?_, ?_⟩, ⟨?_, ?_⟩, fun e => ⟨rfl, rfl⟩⟩
  · simp [refreshStatsJob]
  · simp [refreshAllTablesJob]
  · cases h : o.file.err <;> simp [refreshStatsJob, h, List.filter]
  · cases h : o.file.err <;> simp [refreshAllTablesJob, h, List.filter]

end Main
